import Mathlib

/-!
# Eye-adaptation post-processing (`BsPostProcessing.cpp`)

A shallow embedding of `Source/RenderBeast/Source/BsPostProcessing.cpp`:
the four materials `DownsampleMat`, `EyeAdaptHistogramMat`,
`EyeAdaptHistogramReduceMat`, `EyeAdaptationMat` and the orchestrator
`PostProcessing::postProcess`.

Conventions of the embedding.

* `UINT32` values are naturals, `INT32` values are integers; wherever the
  source performs 32-bit arithmetic the result is wrapped explicitly
  (`UINT32.wrap`, `INT32.wrap`).
* `float` values are rationals.  Arithmetic on settings is exact rational
  arithmetic.  The one place where the precision of `float` changes an
  integer result, the implicit `UINT32 → float` conversion in
  `DownsampleMat::execute`, is modelled by `toFloat` (round to nearest, ties to
  even, 24-bit significand).  The rationals have no NaN and no infinities; where
  these decide a property, the ordering of the bounds written by
  `EyeAdaptationMat::execute`, the computation is embedded a second time over
  `FloatValue` (`EyeAdaptationMat.executeBounds`), with the comparisons of
  `float`.
* A `SPtr` that may be null is an `Option`; dereferencing a null pointer makes
  the enclosing operation return `none`.
* The process-wide singletons (`RenderTexturePool::instance()`,
  `RenderAPICore::instance()`, `gRendererUtility()`) are the explicit `World`:
  the pool together with the chronological list of commands issued.  The list
  also records every dereference of a pipeline-state slot.
* Declarations of `BsPostProcessing.h` and of the math library that the file
  uses but does not define (the thread-group constants, the histogram texel
  count, `Math::pow`) are the fields of `Engine`.
-/

namespace BansheeEngine

/-! ## Machine numbers -/

/-- Reduction of an integer to the range of `UINT32`. -/
def UINT32.wrap (n : Int) : Nat := (n % 2 ^ 32).toNat

/-- Reduction of an integer to the range of `INT32` (the signed 32-bit range, modulo 2^32). -/
def INT32.wrap (n : Int) : Int := (n + 2 ^ 31) % 2 ^ 32 - 2 ^ 31

/-- Exponent of the unit in the last place of the `float` nearest to `n`:
the least `e` with `n / 2 ^ e < 2 ^ 24`.  The first argument bounds the search. -/
def ulpExp : Nat → Nat → Nat
  | 0, _ => 0
  | fuel + 1, n => if n < 2 ^ 24 then 0 else ulpExp fuel (n / 2) + 1

/-- Value of the `float` obtained from an unsigned integer by the implicit
conversion: round to nearest, ties to even, with a 24-bit significand. -/
def toFloatNat (n : Nat) : Nat :=
  let e := ulpExp n n
  let q := n / 2 ^ e
  let r := n % 2 ^ e
  if 2 * r < 2 ^ e then q * 2 ^ e
  else if 2 ^ e < 2 * r then (q + 1) * 2 ^ e
  else if q % 2 = 0 then q * 2 ^ e
  else (q + 1) * 2 ^ e

/-- The implicit conversion `UINT32 → float`. -/
def toFloat (n : Nat) : ℚ := (toFloatNat n : ℚ)

/-- The function `std::min`: returns the first argument unless the second is smaller. -/
def stdMin {α : Type} [LinearOrder α] (a b : α) : α := if b < a then b else a

/-- The function `std::max`: returns the first argument unless it is smaller than the second. -/
def stdMax {α : Type} [LinearOrder α] (a b : α) : α := if a < b then b else a

/-- Modelled from the spec: `Math::ceilToInt` (engine math header, not part of
this file).  The spec gives the downsampled size as `ceil(width/2)`; the helper
rounds up to an integer and returns it as `int`, here wrapped modulo 2^32
for a value outside the `int` range. -/
def Math.ceilToInt (val : ℚ) : Int := INT32.wrap ⌈val⌉

/-- Modelled from the spec: `Math::clamp01` (engine math header, not part of
this file).  The spec calls the percentile bounds auto-clamped; the helper
clamps its argument to the unit interval. -/
def Math.clamp01 (val : ℚ) : ℚ := stdMax (stdMin val 1) 0

/-! ## Data model -/

inductive PixelFormat where
  | PF_FLOAT16_RGBA
  | PF_FLOAT32_R
  | PF_OTHER (code : Nat)
  deriving DecidableEq, Repr

inductive TextureUsage where
  | TU_RENDERTARGET
  | TU_LOADSTORE
  deriving DecidableEq, Repr

structure POOLED_RENDER_TEXTURE_DESC where
  format : PixelFormat
  width : Nat
  height : Nat
  flag : TextureUsage
  deriving DecidableEq, Repr

def POOLED_RENDER_TEXTURE_DESC.create2D (format : PixelFormat) (width height : Nat)
    (usage : TextureUsage) : POOLED_RENDER_TEXTURE_DESC :=
  { format := format, width := width, height := height, flag := usage }

/-- Identity of a GPU resource. -/
inductive ResourceName where
  | white
  | scene (tag : Nat)
  | pooled (id : Nat)
  deriving DecidableEq, Repr

structure TextureProperties where
  format : PixelFormat
  width : Nat
  height : Nat
  deriving DecidableEq, Repr

structure TextureCore where
  name : ResourceName
  props : TextureProperties
  deriving DecidableEq, Repr

/-- The engine's built-in white texture `TextureCore::WHITE`.  Only its identity
is used by this file; its properties are never read. -/
def TextureCore.WHITE : TextureCore :=
  { name := ResourceName.white, props := { format := PixelFormat.PF_OTHER 0, width := 1, height := 1 } }

structure RenderTextureProperties where
  width : Nat
  height : Nat
  deriving DecidableEq, Repr

structure RenderTextureCore where
  props : RenderTextureProperties
  colorTexture : TextureCore
  deriving DecidableEq, Repr

def RenderTextureCore.getProperties (rt : RenderTextureCore) : RenderTextureProperties := rt.props

def RenderTextureCore.getBindableColorTexture (rt : RenderTextureCore) : TextureCore :=
  rt.colorTexture

/-- A handle handed out by the render-texture pool. -/
structure PooledRenderTexture where
  id : Nat
  desc : POOLED_RENDER_TEXTURE_DESC
  deriving DecidableEq, Repr

/-- The member `texture` of a pooled handle: it has the properties of the descriptor. -/
def PooledRenderTexture.texture (t : PooledRenderTexture) : TextureCore :=
  { name := ResourceName.pooled t.id,
    props := { format := t.desc.format, width := t.desc.width, height := t.desc.height } }

/-- The member `renderTexture` of a pooled handle. -/
def PooledRenderTexture.renderTexture (t : PooledRenderTexture) : RenderTextureCore :=
  { props := { width := t.desc.width, height := t.desc.height }, colorTexture := t.texture }

/-- The render-texture pool, as far as its acquire/release contract goes: the
handles currently handed out, and the identity of the next handle. -/
structure RenderTexturePool where
  nextId : Nat
  outstanding : List PooledRenderTexture
  deriving Repr

/-- The call `RenderTexturePool::get`: a handle that matches the descriptor. -/
def RenderTexturePool.get (pool : RenderTexturePool) (desc : POOLED_RENDER_TEXTURE_DESC) :
    PooledRenderTexture × RenderTexturePool :=
  ({ id := pool.nextId, desc := desc },
   { nextId := pool.nextId + 1,
     outstanding := { id := pool.nextId, desc := desc } :: pool.outstanding })

/-- The call `RenderTexturePool::release`: the handle goes back to the pool.  The
caller's pointer is left as it is. -/
def RenderTexturePool.release (pool : RenderTexturePool) (tex : PooledRenderTexture) :
    RenderTexturePool :=
  { pool with outstanding := pool.outstanding.erase tex }

/-- Number of handles handed out and not yet released. -/
def RenderTexturePool.outstandingCount (pool : RenderTexturePool) : Nat :=
  pool.outstanding.length

structure PostProcessSettings where
  histogramLog2Min : ℚ
  histogramLog2Max : ℚ
  histogramPctLow : ℚ
  histogramPctHigh : ℚ
  minEyeAdaptation : ℚ
  maxEyeAdaptation : ℚ
  eyeAdaptationSpeedUp : ℚ
  eyeAdaptationSpeedDown : ℚ
  exposureScale : ℚ

/-- The pipeline state `PostProcessInfo`.  The two-element array
`eyeAdaptationTex` is a pair. -/
structure PostProcessInfo where
  settings : PostProcessSettings
  downsampledSceneTex : Option PooledRenderTexture
  histogramTex : Option PooledRenderTexture
  histogramReduceTex : Option PooledRenderTexture
  eyeAdaptationTex : Option PooledRenderTexture × Option PooledRenderTexture
  lastEyeAdaptationTex : Nat

/-- Array read `eyeAdaptationTex[i]`; an index outside the array has no value. -/
def PostProcessInfo.eyeAdaptationTexAt (ppInfo : PostProcessInfo) (i : Nat) :
    Option (Option PooledRenderTexture) :=
  match i with
  | 0 => some ppInfo.eyeAdaptationTex.1
  | 1 => some ppInfo.eyeAdaptationTex.2
  | _ => none

inductive Stage where
  | Downsample
  | EyeAdaptHistogram
  | EyeAdaptHistogramReduce
  | EyeAdaptation
  deriving DecidableEq, Repr

inductive Slot where
  | downsampledSceneTex
  | histogramTex
  | histogramReduceTex
  | eyeAdaptationTex (i : Nat)
  deriving DecidableEq, Repr

/-- What a stage does to the outside: pool traffic, dereferences of pipeline-state
slots, and render-API commands. -/
inductive Event where
  | poolGet (slot : Slot) (tex : PooledRenderTexture)
  | poolRelease (slot : Slot) (tex : PooledRenderTexture)
  | read (stage : Stage) (slot : Slot)
  | setRenderTarget (stage : Stage) (rt : RenderTextureCore)
  | setPass (stage : Stage)
  | drawScreenQuad (stage : Stage)
  | dispatchCompute (stage : Stage) (x y : Int)
  deriving DecidableEq, Repr

structure World where
  pool : RenderTexturePool
  trace : List Event

structure Vector2I where
  x : Int
  y : Int
  deriving DecidableEq, Repr

structure Vector4 where
  x : ℚ := 0
  y : ℚ := 0
  z : ℚ := 0
  w : ℚ := 0

/-- Declarations used by the file and made elsewhere: the constants of
`EyeAdaptHistogramMat` in `BsPostProcessing.h`, and `Math::pow`. -/
structure Engine where
  THREAD_GROUP_SIZE_X : Int
  THREAD_GROUP_SIZE_Y : Int
  LOOP_COUNT_X : Int
  LOOP_COUNT_Y : Int
  HISTOGRAM_NUM_TEXELS : Nat
  pow : ℚ → ℚ → ℚ

/-! ## Materials -/

structure DownsampleMat where
  mInputTexture : Option TextureCore
  gInvTexSize : ℚ × ℚ
  mOutputDesc : POOLED_RENDER_TEXTURE_DESC
  mOutput : Option RenderTextureCore

structure EyeAdaptHistogramMat where
  mSceneColor : Option TextureCore
  mOutputTex : Option TextureCore
  gHistogramParams : ℚ × ℚ
  gPixelOffsetAndSize : Int × Int × Int × Int
  gThreadGroupCount : Vector2I
  mOutputDesc : POOLED_RENDER_TEXTURE_DESC
  mOutput : Option RenderTextureCore

structure EyeAdaptHistogramReduceMat where
  mHistogramTex : Option TextureCore
  mEyeAdaptationTex : Option TextureCore
  gThreadGroupCount : Vector2I
  mOutputDesc : POOLED_RENDER_TEXTURE_DESC
  mOutput : Option RenderTextureCore

structure EyeAdaptationMat where
  mReducedHistogramTex : Option TextureCore
  gEyeAdaptationParams : List Vector4

structure PostProcessing where
  mDownsample : DownsampleMat
  mEyeAdaptHistogram : EyeAdaptHistogramMat
  mEyeAdaptHistogramReduce : EyeAdaptHistogramReduceMat
  mEyeAdaptation : EyeAdaptationMat

/-! ## `DownsampleMat` -/

def DownsampleMat.execute (self : DownsampleMat) (target : RenderTextureCore)
    (ppInfo : PostProcessInfo) (w : World) : DownsampleMat × PostProcessInfo × World :=
  -- Set parameters
  let colorTexture := target.getBindableColorTexture
  let rtProps := target.getProperties
  let invTextureSize : ℚ × ℚ := (1 / toFloat rtProps.width, 1 / toFloat rtProps.height)
  -- Set output
  let colorProps := colorTexture.props
  let width : Nat := UINT32.wrap (stdMax 1 (Math.ceilToInt (toFloat colorProps.width * (1 / 2))))
  let height : Nat := UINT32.wrap (stdMax 1 (Math.ceilToInt (toFloat colorProps.height * (1 / 2))))
  let mOutputDesc :=
    POOLED_RENDER_TEXTURE_DESC.create2D colorProps.format width height TextureUsage.TU_RENDERTARGET
  -- Render
  let got := w.pool.get mOutputDesc
  let ppInfo := { ppInfo with downsampledSceneTex := some got.1 }
  let w : World :=
    { pool := got.2,
      trace := w.trace ++
        [Event.poolGet Slot.downsampledSceneTex got.1,
         Event.read Stage.Downsample Slot.downsampledSceneTex,
         Event.setRenderTarget Stage.Downsample got.1.renderTexture,
         Event.setPass Stage.Downsample,
         Event.drawScreenQuad Stage.Downsample,
         Event.read Stage.Downsample Slot.downsampledSceneTex] }
  ({ mInputTexture := some colorTexture, gInvTexSize := invTextureSize,
     mOutputDesc := mOutputDesc, mOutput := some got.1.renderTexture }, ppInfo, w)

def DownsampleMat.release (self : DownsampleMat) (ppInfo : PostProcessInfo) (w : World) :
    Option (DownsampleMat × PostProcessInfo × World) := do
  let tex ← ppInfo.downsampledSceneTex
  let w : World :=
    { pool := w.pool.release tex,
      trace := w.trace ++ [Event.poolRelease Slot.downsampledSceneTex tex] }
  pure ({ self with mOutput := none }, ppInfo, w)

/-! ## `EyeAdaptHistogramMat` -/

def EyeAdaptHistogramMat.getThreadGroupCount (E : Engine) (target : RenderTextureCore) :
    Vector2I :=
  let texelsPerThreadGroupX : Nat := UINT32.wrap (E.THREAD_GROUP_SIZE_X * E.LOOP_COUNT_X)
  let texelsPerThreadGroupY : Nat := UINT32.wrap (E.THREAD_GROUP_SIZE_Y * E.LOOP_COUNT_Y)
  let props := target.getProperties
  -- the `INT32` operand is converted to `UINT32`; sum, difference and quotient are unsigned
  { x := INT32.wrap
      ((UINT32.wrap (INT32.wrap props.width + texelsPerThreadGroupX - 1) / texelsPerThreadGroupX : Nat) : Int),
    y := INT32.wrap
      ((UINT32.wrap (INT32.wrap props.height + texelsPerThreadGroupY - 1) / texelsPerThreadGroupY : Nat) : Int) }

def EyeAdaptHistogramMat.getHistogramScaleOffset (ppInfo : PostProcessInfo) : ℚ × ℚ :=
  let settings := ppInfo.settings
  let diff := settings.histogramLog2Max - settings.histogramLog2Min
  let scale := 1 / diff
  let offset := -settings.histogramLog2Min * scale
  (scale, offset)

def EyeAdaptHistogramMat.execute (E : Engine) (self : EyeAdaptHistogramMat)
    (ppInfo : PostProcessInfo) (w : World) :
    Option (EyeAdaptHistogramMat × PostProcessInfo × World) := do
  -- Set parameters
  let downsampled ← ppInfo.downsampledSceneTex
  let target := downsampled.renderTexture
  let props := target.getProperties
  let offsetAndSize : Int × Int × Int × Int :=
    (0, 0, INT32.wrap props.width, INT32.wrap props.height)
  let threadGroupCount := EyeAdaptHistogramMat.getThreadGroupCount E target
  -- Set output
  let numHistograms : Nat := UINT32.wrap (threadGroupCount.x * threadGroupCount.y)
  let mOutputDesc :=
    POOLED_RENDER_TEXTURE_DESC.create2D PixelFormat.PF_FLOAT16_RGBA E.HISTOGRAM_NUM_TEXELS
      numHistograms TextureUsage.TU_LOADSTORE
  -- Dispatch
  let got := w.pool.get mOutputDesc
  let w : World :=
    { pool := got.2,
      trace := w.trace ++
        [Event.read Stage.EyeAdaptHistogram Slot.downsampledSceneTex,
         Event.read Stage.EyeAdaptHistogram Slot.downsampledSceneTex,
         Event.poolGet Slot.histogramTex got.1,
         Event.read Stage.EyeAdaptHistogram Slot.histogramTex,
         Event.dispatchCompute Stage.EyeAdaptHistogram threadGroupCount.x threadGroupCount.y,
         Event.read Stage.EyeAdaptHistogram Slot.histogramTex] }
  pure
    ({ mSceneColor := some downsampled.texture, mOutputTex := some got.1.texture,
       gHistogramParams := EyeAdaptHistogramMat.getHistogramScaleOffset ppInfo,
       gPixelOffsetAndSize := offsetAndSize, gThreadGroupCount := threadGroupCount,
       mOutputDesc := mOutputDesc, mOutput := some got.1.renderTexture },
     { ppInfo with histogramTex := some got.1 }, w)

def EyeAdaptHistogramMat.release (self : EyeAdaptHistogramMat) (ppInfo : PostProcessInfo)
    (w : World) : Option (EyeAdaptHistogramMat × PostProcessInfo × World) := do
  let tex ← ppInfo.histogramTex
  let w : World :=
    { pool := w.pool.release tex,
      trace := w.trace ++ [Event.poolRelease Slot.histogramTex tex] }
  pure ({ self with mOutput := none }, ppInfo, w)

/-! ## `EyeAdaptHistogramReduceMat` -/

def EyeAdaptHistogramReduceMat.execute (E : Engine) (self : EyeAdaptHistogramReduceMat)
    (ppInfo : PostProcessInfo) (w : World) :
    Option (EyeAdaptHistogramReduceMat × PostProcessInfo × World) := do
  -- Set parameters
  let histogram ← ppInfo.histogramTex
  let eyeAdaptationRT ← ppInfo.eyeAdaptationTexAt ppInfo.lastEyeAdaptationTex
  let eyeAdaptationTex : TextureCore :=
    match eyeAdaptationRT with
    | some rt => rt.texture -- Could be that this is the first run
    | none => TextureCore.WHITE
  let adaptationReads : List Event :=
    match eyeAdaptationRT with
    | some _ =>
      [Event.read Stage.EyeAdaptHistogramReduce (Slot.eyeAdaptationTex ppInfo.lastEyeAdaptationTex)]
    | none => []
  let downsampled ← ppInfo.downsampledSceneTex
  let threadGroupCount := EyeAdaptHistogramMat.getThreadGroupCount E downsampled.renderTexture
  -- Set output
  let mOutputDesc :=
    POOLED_RENDER_TEXTURE_DESC.create2D PixelFormat.PF_FLOAT16_RGBA E.HISTOGRAM_NUM_TEXELS 2
      TextureUsage.TU_LOADSTORE
  -- Render
  let got := w.pool.get mOutputDesc
  let w : World :=
    { pool := got.2,
      trace := w.trace ++
        ([Event.read Stage.EyeAdaptHistogramReduce Slot.histogramTex] ++ adaptationReads ++
         [Event.read Stage.EyeAdaptHistogramReduce Slot.downsampledSceneTex,
          Event.poolGet Slot.histogramReduceTex got.1,
          Event.read Stage.EyeAdaptHistogramReduce Slot.histogramReduceTex,
          Event.setRenderTarget Stage.EyeAdaptHistogramReduce got.1.renderTexture,
          Event.setPass Stage.EyeAdaptHistogramReduce,
          Event.drawScreenQuad Stage.EyeAdaptHistogramReduce,
          Event.read Stage.EyeAdaptHistogramReduce Slot.histogramReduceTex]) }
  pure
    ({ mHistogramTex := some histogram.texture, mEyeAdaptationTex := some eyeAdaptationTex,
       gThreadGroupCount := threadGroupCount, mOutputDesc := mOutputDesc,
       mOutput := some got.1.renderTexture },
     { ppInfo with histogramReduceTex := some got.1 }, w)

def EyeAdaptHistogramReduceMat.release (self : EyeAdaptHistogramReduceMat)
    (ppInfo : PostProcessInfo) (w : World) :
    Option (EyeAdaptHistogramReduceMat × PostProcessInfo × World) := do
  let tex ← ppInfo.histogramReduceTex
  let w : World :=
    { pool := w.pool.release tex,
      trace := w.trace ++ [Event.poolRelease Slot.histogramReduceTex tex] }
  pure ({ self with mOutput := none }, ppInfo, w)

/-! ## `EyeAdaptationMat` -/

def EyeAdaptationMat.execute (E : Engine) (self : EyeAdaptationMat) (ppInfo : PostProcessInfo)
    (frameDelta : ℚ) (w : World) : Option (EyeAdaptationMat × PostProcessInfo × World) := do
  let texturesInitialized : Bool :=
    ppInfo.eyeAdaptationTex.1.isSome && ppInfo.eyeAdaptationTex.2.isSome
  let outputDesc :=
    POOLED_RENDER_TEXTURE_DESC.create2D PixelFormat.PF_FLOAT32_R 1 1 TextureUsage.TU_RENDERTARGET
  let got0 := w.pool.get outputDesc
  let got1 := got0.2.get outputDesc
  let ppInfo : PostProcessInfo :=
    if texturesInitialized then ppInfo
    else { ppInfo with eyeAdaptationTex := (some got0.1, some got1.1) }
  let w : World :=
    if texturesInitialized then w
    else
      { pool := got1.2,
        trace := w.trace ++
          [Event.poolGet (Slot.eyeAdaptationTex 0) got0.1,
           Event.poolGet (Slot.eyeAdaptationTex 1) got1.1] }
  let ppInfo : PostProcessInfo :=
    { ppInfo with lastEyeAdaptationTex := (ppInfo.lastEyeAdaptationTex + 1) % 2 }
  -- Set parameters
  let reduced ← ppInfo.histogramReduceTex
  let histogramScaleAndOffset := EyeAdaptHistogramMat.getHistogramScaleOffset ppInfo
  let settings := ppInfo.settings
  let histogramPctHigh := Math.clamp01 settings.histogramPctHigh
  let eyeAdaptationParams0 : Vector4 :=
    { x := histogramScaleAndOffset.1,
      y := histogramScaleAndOffset.2,
      z := stdMin (Math.clamp01 settings.histogramPctLow) histogramPctHigh,
      w := histogramPctHigh }
  let eyeAdaptationParams1 : Vector4 :=
    { x := stdMin settings.minEyeAdaptation settings.maxEyeAdaptation,
      y := settings.maxEyeAdaptation,
      z := settings.eyeAdaptationSpeedUp,
      w := settings.eyeAdaptationSpeedDown }
  let eyeAdaptationParams2 : Vector4 :=
    { x := E.pow 2 settings.exposureScale,
      y := frameDelta }
  -- Render
  let slot ← ppInfo.eyeAdaptationTexAt ppInfo.lastEyeAdaptationTex
  let eyeAdaptationRT ← slot
  let w : World :=
    { w with
      trace := w.trace ++
        [Event.read Stage.EyeAdaptation Slot.histogramReduceTex,
         Event.read Stage.EyeAdaptation (Slot.eyeAdaptationTex ppInfo.lastEyeAdaptationTex),
         Event.setRenderTarget Stage.EyeAdaptation eyeAdaptationRT.renderTexture,
         Event.setPass Stage.EyeAdaptation,
         Event.drawScreenQuad Stage.EyeAdaptation] }
  pure
    ({ mReducedHistogramTex := some reduced.texture,
       gEyeAdaptationParams := [eyeAdaptationParams0, eyeAdaptationParams1, eyeAdaptationParams2] },
     ppInfo, w)

/-! ## The bounds of `EyeAdaptationMat::execute` on `float` values -/

/-- A value of type `float` with its special values: NaN, the two infinities,
or a number. -/
inductive FloatValue where
  | nan
  | negInf
  | num (q : ℚ)
  | posInf
  deriving DecidableEq

/-- The comparison `a < b` of `float`: false as soon as one operand is NaN. -/
def FloatValue.lt : FloatValue → FloatValue → Bool
  | FloatValue.nan, _ => false
  | _, FloatValue.nan => false
  | _, FloatValue.negInf => false
  | FloatValue.negInf, _ => true
  | FloatValue.posInf, _ => false
  | FloatValue.num _, FloatValue.posInf => true
  | FloatValue.num a, FloatValue.num b => decide (a < b)

/-- The comparison `a <= b` of `float`: false as soon as one operand is NaN. -/
def FloatValue.le : FloatValue → FloatValue → Bool
  | FloatValue.nan, _ => false
  | _, FloatValue.nan => false
  | FloatValue.negInf, _ => true
  | _, FloatValue.posInf => true
  | FloatValue.posInf, _ => false
  | FloatValue.num _, FloatValue.negInf => false
  | FloatValue.num a, FloatValue.num b => decide (a ≤ b)

/-- The function `std::min` at type `float`: `(b < a) ? b : a`. -/
def stdMinFloat (a b : FloatValue) : FloatValue := if FloatValue.lt b a then b else a

/-- The function `std::max` at type `float`: `(a < b) ? b : a`. -/
def stdMaxFloat (a b : FloatValue) : FloatValue := if FloatValue.lt a b then b else a

/-- Modelled from the spec: `Math::clamp01` (engine math header, not part of
this file) at type `float`: the clamp `Math.clamp01` with the comparisons of
`float`. -/
def Math.clamp01Float (val : FloatValue) : FloatValue :=
  stdMaxFloat (stdMinFloat val (FloatValue.num 1)) (FloatValue.num 0)

/-- The four bounds among the shader parameters of `EyeAdaptationMat::execute`:
`eyeAdaptationParams[0].z`, `[0].w`, `[1].x` and `[1].y`. -/
structure AdaptationBounds where
  params0z : FloatValue
  params0w : FloatValue
  params1x : FloatValue
  params1y : FloatValue
  deriving DecidableEq

/-- Lines 230 to 236 of `EyeAdaptationMat::execute` on `float` values, special
values included: the percentile and adaptation bounds written into the shader
parameters, as a function of the four settings they are computed from. -/
def EyeAdaptationMat.executeBounds
    (histogramPctLow histogramPctHigh minEyeAdaptation maxEyeAdaptation : FloatValue) :
    AdaptationBounds :=
  let histogramPctHigh := Math.clamp01Float histogramPctHigh
  { params0z := stdMinFloat (Math.clamp01Float histogramPctLow) histogramPctHigh,
    params0w := histogramPctHigh,
    params1x := stdMinFloat minEyeAdaptation maxEyeAdaptation,
    params1y := maxEyeAdaptation }

/-! ## `PostProcessing` -/

def PostProcessing.postProcess (E : Engine) (self : PostProcessing) (target : RenderTextureCore)
    (ppInfo : PostProcessInfo) (frameDelta : ℚ) (w : World) :
    Option (PostProcessing × PostProcessInfo × World) := do
  let r1 := self.mDownsample.execute target ppInfo w
  let r2 ← self.mEyeAdaptHistogram.execute E r1.2.1 r1.2.2
  let r3 ← r1.1.release r2.2.1 r2.2.2
  let r4 ← self.mEyeAdaptHistogramReduce.execute E r3.2.1 r3.2.2
  let r5 ← r2.1.release r4.2.1 r4.2.2
  let r6 ← self.mEyeAdaptation.execute E r5.2.1 frameDelta r5.2.2
  let r7 ← r4.1.release r6.2.1 r6.2.2
  pure
    ({ mDownsample := r3.1, mEyeAdaptHistogram := r5.1, mEyeAdaptHistogramReduce := r7.1,
       mEyeAdaptation := r6.1 },
     r7.2.1, r7.2.2)

/-- A sequence of frames on one pipeline state: `postProcess` once per element,
with the target and frame time of that element.  The command list is emptied
before each call, so that after a call it holds the commands of that call. -/
def PostProcessing.postProcessCalls (E : Engine) :
    List (RenderTextureCore × ℚ) → PostProcessing × PostProcessInfo × World →
      Option (PostProcessing × PostProcessInfo × World)
  | [], s => some s
  | call :: rest, s =>
    (PostProcessing.postProcess E s.1 call.1 s.2.1 call.2 { s.2.2 with trace := [] }).bind
      (PostProcessing.postProcessCalls E rest)

/-! ## Observations on a command list -/

/-- Scan of a command list for one slot: `true` when every dereference of the
slot happens while the slot is live, that is after a `poolGet` into the slot and
before the next `poolRelease` of it.  The first argument says whether the slot
is live at the start. -/
def readsWhileLive (s : Slot) : Bool → List Event → Bool
  | _, [] => true
  | live, Event.poolGet s1 _ :: es => readsWhileLive s (if s1 = s then true else live) es
  | live, Event.poolRelease s1 _ :: es => readsWhileLive s (if s1 = s then false else live) es
  | live, Event.read _ s1 :: es => (if s1 = s then live else true) && readsWhileLive s live es
  | live, _ :: es => readsWhileLive s live es

/-- The render targets a stage has set, in order. -/
def renderTargetsOf (st : Stage) : List Event → List RenderTextureCore
  | [] => []
  | Event.setRenderTarget st1 rt :: es =>
    if st1 = st then rt :: renderTargetsOf st es else renderTargetsOf st es
  | _ :: es => renderTargetsOf st es

/-- The compute dispatches in a command list, in order. -/
def dispatchesOf : List Event → List (Int × Int)
  | [] => []
  | Event.dispatchCompute _ x y :: es => (x, y) :: dispatchesOf es
  | _ :: es => dispatchesOf es

/-- The draws of a stage in a command list: how many. -/
def drawCountOf (st : Stage) : List Event → Nat
  | [] => 0
  | Event.drawScreenQuad st1 :: es => (if st1 = st then 1 else 0) + drawCountOf st es
  | _ :: es => drawCountOf st es

/-! ## Sample values -/

/-- A power function that agrees with `Math::pow` at integer exponents. -/
def powFloor (b e : ℚ) : ℚ := b ^ ⌊e⌋

/-- Sample values for the declarations of `Engine`: 8 by 8 threads per group,
8 by 8 texels per thread, 16 histogram texels. -/
def sampleEngine : Engine :=
  { THREAD_GROUP_SIZE_X := 8, THREAD_GROUP_SIZE_Y := 8, LOOP_COUNT_X := 8, LOOP_COUNT_Y := 8,
    HISTOGRAM_NUM_TEXELS := 16, pow := powFloor }

/-- The settings of the end-to-end example of the spec. -/
def sampleSettings : PostProcessSettings :=
  { histogramLog2Min := -8, histogramLog2Max := 4, histogramPctLow := 1 / 5,
    histogramPctHigh := 4 / 5, minEyeAdaptation := 1 / 10, maxEyeAdaptation := 10,
    eyeAdaptationSpeedUp := 3, eyeAdaptationSpeedDown := 1, exposureScale := 0 }

/-- A pipeline state before the first frame. -/
def freshInfo (settings : PostProcessSettings) : PostProcessInfo :=
  { settings := settings, downsampledSceneTex := none, histogramTex := none,
    histogramReduceTex := none, eyeAdaptationTex := (none, none), lastEyeAdaptationTex := 0 }

def emptyDesc : POOLED_RENDER_TEXTURE_DESC :=
  POOLED_RENDER_TEXTURE_DESC.create2D (PixelFormat.PF_OTHER 0) 0 0 TextureUsage.TU_RENDERTARGET

/-- A `PostProcessing` object before the first frame. -/
def freshPostProcessing : PostProcessing :=
  { mDownsample :=
      { mInputTexture := none, gInvTexSize := (0, 0), mOutputDesc := emptyDesc, mOutput := none },
    mEyeAdaptHistogram :=
      { mSceneColor := none, mOutputTex := none, gHistogramParams := (0, 0),
        gPixelOffsetAndSize := (0, 0, 0, 0), gThreadGroupCount := { x := 0, y := 0 },
        mOutputDesc := emptyDesc, mOutput := none },
    mEyeAdaptHistogramReduce :=
      { mHistogramTex := none, mEyeAdaptationTex := none, gThreadGroupCount := { x := 0, y := 0 },
        mOutputDesc := emptyDesc, mOutput := none },
    mEyeAdaptation := { mReducedHistogramTex := none, gEyeAdaptationParams := [] } }

def emptyWorld : World := { pool := { nextId := 0, outstanding := [] }, trace := [] }

/-- A scene colour target of the given size. -/
def sceneTarget (width height : Nat) : RenderTextureCore :=
  { props := { width := width, height := height },
    colorTexture :=
      { name := ResourceName.scene 0,
        props := { format := PixelFormat.PF_OTHER 1, width := width, height := height } } }

/-! ## The straight-line form of one frame

Auxiliary definitions for the proofs: the descriptors, handles and commands of
one `postProcess` call written out, as functions of the inputs. -/

/-- The descriptor `DownsampleMat::execute` builds for a target. -/
def downsampleDesc (target : RenderTextureCore) : POOLED_RENDER_TEXTURE_DESC :=
  POOLED_RENDER_TEXTURE_DESC.create2D target.getBindableColorTexture.props.format
    (UINT32.wrap (stdMax 1
      (Math.ceilToInt (toFloat target.getBindableColorTexture.props.width * (1 / 2)))))
    (UINT32.wrap (stdMax 1
      (Math.ceilToInt (toFloat target.getBindableColorTexture.props.height * (1 / 2)))))
    TextureUsage.TU_RENDERTARGET

/-- The descriptor `EyeAdaptHistogramMat::execute` builds for a downsampled scene. -/
def histogramDesc (E : Engine) (ds : PooledRenderTexture) : POOLED_RENDER_TEXTURE_DESC :=
  POOLED_RENDER_TEXTURE_DESC.create2D PixelFormat.PF_FLOAT16_RGBA E.HISTOGRAM_NUM_TEXELS
    (UINT32.wrap ((EyeAdaptHistogramMat.getThreadGroupCount E ds.renderTexture).x *
      (EyeAdaptHistogramMat.getThreadGroupCount E ds.renderTexture).y))
    TextureUsage.TU_LOADSTORE

/-- The descriptor `EyeAdaptHistogramReduceMat::execute` builds. -/
def reduceDesc (E : Engine) : POOLED_RENDER_TEXTURE_DESC :=
  POOLED_RENDER_TEXTURE_DESC.create2D PixelFormat.PF_FLOAT16_RGBA E.HISTOGRAM_NUM_TEXELS 2
    TextureUsage.TU_LOADSTORE

/-- The descriptor of the two adaptation buffers. -/
def adaptationDesc : POOLED_RENDER_TEXTURE_DESC :=
  POOLED_RENDER_TEXTURE_DESC.create2D PixelFormat.PF_FLOAT32_R 1 1 TextureUsage.TU_RENDERTARGET

/-- The test `texturesInitialized` of `EyeAdaptationMat::execute`. -/
def texturesInitialized (ea : Option PooledRenderTexture × Option PooledRenderTexture) : Bool :=
  ea.1.isSome && ea.2.isSome

/-- The adaptation buffers after `EyeAdaptationMat::execute`: the ones there
were when both were allocated, otherwise two new ones with the identities `n`
and `n + 1`. -/
def adaptationBuffers (ea : Option PooledRenderTexture × Option PooledRenderTexture) (n : Nat) :
    PooledRenderTexture × PooledRenderTexture :=
  match ea with
  | (some a, some b) => (a, b)
  | _ => ({ id := n, desc := adaptationDesc }, { id := n + 1, desc := adaptationDesc })

/-- Element `i` of a pair of buffers, for `i` the value of the double-buffer index. -/
def bufferAt (bufs : PooledRenderTexture × PooledRenderTexture) (i : Nat) : PooledRenderTexture :=
  if i = 0 then bufs.1 else bufs.2

/-- The adaptation input `EyeAdaptHistogramReduceMat::execute` binds. -/
def adaptationInput (ea : Option PooledRenderTexture × Option PooledRenderTexture) (last : Nat) :
    TextureCore :=
  match (if last = 0 then ea.1 else ea.2) with
  | some rt => rt.texture
  | none => TextureCore.WHITE

/-- The commands of one `postProcess` call on a pool whose next identity is `n`
and a pipeline state with adaptation buffers `ea` and double-buffer index `last`. -/
def frameEvents (E : Engine) (target : RenderTextureCore)
    (ea : Option PooledRenderTexture × Option PooledRenderTexture) (last n : Nat) : List Event :=
  let ds : PooledRenderTexture := { id := n, desc := downsampleDesc target }
  let hi : PooledRenderTexture := { id := n + 1, desc := histogramDesc E ds }
  let hr : PooledRenderTexture := { id := n + 2, desc := reduceDesc E }
  let bufs := adaptationBuffers ea (n + 3)
  [Event.poolGet Slot.downsampledSceneTex ds,
   Event.read Stage.Downsample Slot.downsampledSceneTex,
   Event.setRenderTarget Stage.Downsample ds.renderTexture,
   Event.setPass Stage.Downsample,
   Event.drawScreenQuad Stage.Downsample,
   Event.read Stage.Downsample Slot.downsampledSceneTex,
   Event.read Stage.EyeAdaptHistogram Slot.downsampledSceneTex,
   Event.read Stage.EyeAdaptHistogram Slot.downsampledSceneTex,
   Event.poolGet Slot.histogramTex hi,
   Event.read Stage.EyeAdaptHistogram Slot.histogramTex,
   Event.dispatchCompute Stage.EyeAdaptHistogram
     (EyeAdaptHistogramMat.getThreadGroupCount E ds.renderTexture).x
     (EyeAdaptHistogramMat.getThreadGroupCount E ds.renderTexture).y,
   Event.read Stage.EyeAdaptHistogram Slot.histogramTex,
   Event.poolRelease Slot.downsampledSceneTex ds,
   Event.read Stage.EyeAdaptHistogramReduce Slot.histogramTex] ++
  (if (if last = 0 then ea.1 else ea.2).isSome then
    [Event.read Stage.EyeAdaptHistogramReduce (Slot.eyeAdaptationTex last)] else []) ++
  [Event.read Stage.EyeAdaptHistogramReduce Slot.downsampledSceneTex,
   Event.poolGet Slot.histogramReduceTex hr,
   Event.read Stage.EyeAdaptHistogramReduce Slot.histogramReduceTex,
   Event.setRenderTarget Stage.EyeAdaptHistogramReduce hr.renderTexture,
   Event.setPass Stage.EyeAdaptHistogramReduce,
   Event.drawScreenQuad Stage.EyeAdaptHistogramReduce,
   Event.read Stage.EyeAdaptHistogramReduce Slot.histogramReduceTex,
   Event.poolRelease Slot.histogramTex hi] ++
  (if texturesInitialized ea then [] else
    [Event.poolGet (Slot.eyeAdaptationTex 0) bufs.1,
     Event.poolGet (Slot.eyeAdaptationTex 1) bufs.2]) ++
  [Event.read Stage.EyeAdaptation Slot.histogramReduceTex,
   Event.read Stage.EyeAdaptation (Slot.eyeAdaptationTex ((last + 1) % 2)),
   Event.setRenderTarget Stage.EyeAdaptation (bufferAt bufs ((last + 1) % 2)).renderTexture,
   Event.setPass Stage.EyeAdaptation,
   Event.drawScreenQuad Stage.EyeAdaptation,
   Event.poolRelease Slot.histogramReduceTex hr]

/-- The pipeline state after one `postProcess` call. -/
def frameInfo (E : Engine) (target : RenderTextureCore) (ppInfo : PostProcessInfo) (n : Nat) :
    PostProcessInfo :=
  { settings := ppInfo.settings,
    downsampledSceneTex := some { id := n, desc := downsampleDesc target },
    histogramTex :=
      some { id := n + 1, desc := histogramDesc E { id := n, desc := downsampleDesc target } },
    histogramReduceTex := some { id := n + 2, desc := reduceDesc E },
    eyeAdaptationTex :=
      (some (adaptationBuffers ppInfo.eyeAdaptationTex (n + 3)).1,
       some (adaptationBuffers ppInfo.eyeAdaptationTex (n + 3)).2),
    lastEyeAdaptationTex := (ppInfo.lastEyeAdaptationTex + 1) % 2 }

/-- The pool after one `postProcess` call. -/
def framePool (ppInfo : PostProcessInfo) (pool : RenderTexturePool) : RenderTexturePool :=
  if texturesInitialized ppInfo.eyeAdaptationTex then
    { nextId := pool.nextId + 3, outstanding := pool.outstanding }
  else
    { nextId := pool.nextId + 5,
      outstanding :=
        { id := pool.nextId + 4, desc := adaptationDesc } ::
          { id := pool.nextId + 3, desc := adaptationDesc } :: pool.outstanding }

/-- The three parameter vectors `EyeAdaptationMat::execute` computes. -/
def adaptationParams (E : Engine) (ppInfo : PostProcessInfo) (frameDelta : ℚ) : List Vector4 :=
  [{ x := (EyeAdaptHistogramMat.getHistogramScaleOffset ppInfo).1,
     y := (EyeAdaptHistogramMat.getHistogramScaleOffset ppInfo).2,
     z := stdMin (Math.clamp01 ppInfo.settings.histogramPctLow)
            (Math.clamp01 ppInfo.settings.histogramPctHigh),
     w := Math.clamp01 ppInfo.settings.histogramPctHigh },
   { x := stdMin ppInfo.settings.minEyeAdaptation ppInfo.settings.maxEyeAdaptation,
     y := ppInfo.settings.maxEyeAdaptation,
     z := ppInfo.settings.eyeAdaptationSpeedUp,
     w := ppInfo.settings.eyeAdaptationSpeedDown },
   { x := E.pow 2 ppInfo.settings.exposureScale, y := frameDelta, z := 0, w := 0 }]

/-- What one `postProcess` call leaves in the materials. -/
structure FrameMaterials (E : Engine) (target : RenderTextureCore) (ppInfo : PostProcessInfo)
    (frameDelta : ℚ) (post : PostProcessing) : Prop where
  downsampleDesc : post.mDownsample.mOutputDesc = downsampleDesc target
  histogramParams :
    post.mEyeAdaptHistogram.gHistogramParams = EyeAdaptHistogramMat.getHistogramScaleOffset ppInfo
  adaptationInput :
    post.mEyeAdaptHistogramReduce.mEyeAdaptationTex =
      some (adaptationInput ppInfo.eyeAdaptationTex ppInfo.lastEyeAdaptationTex)
  reduceDesc : post.mEyeAdaptHistogramReduce.mOutputDesc = reduceDesc E
  adaptationParams :
    post.mEyeAdaptation.gEyeAdaptationParams = adaptationParams E ppInfo frameDelta


/-- The handles acquired from the pool in a command list, with the slot each went to. -/
def poolGetsOf : List Event → List (Slot × PooledRenderTexture)
  | [] => []
  | Event.poolGet s t :: es => (s, t) :: poolGetsOf es
  | _ :: es => poolGetsOf es

/-- The handles released to the pool in a command list, with the slot each came from. -/
def poolReleasesOf : List Event → List (Slot × PooledRenderTexture)
  | [] => []
  | Event.poolRelease s t :: es => (s, t) :: poolReleasesOf es
  | _ :: es => poolReleasesOf es

/-- A state of the frame loop in which both adaptation buffers exist, are
different handles, and the buffer at the double-buffer index is the one the
last call rendered into. -/
def Warm (s : PostProcessing × PostProcessInfo × World) : Prop :=
  ∃ a b : PooledRenderTexture,
    s.2.1.eyeAdaptationTex = (some a, some b) ∧ a.id ≠ b.id ∧ s.2.1.lastEyeAdaptationTex < 2 ∧
      renderTargetsOf Stage.EyeAdaptation s.2.2.trace =
        [(bufferAt (a, b) s.2.1.lastEyeAdaptationTex).renderTexture]

/-- Settings with the histogram range of the example in the spec. -/
def rangeSettings : PostProcessSettings :=
  { sampleSettings with histogramLog2Min := -10, histogramLog2Max := 4 }

/-- Settings whose bounds are given in the wrong order. -/
def swappedSettings : PostProcessSettings :=
  { sampleSettings with
    histogramPctLow := 4 / 5, histogramPctHigh := 1 / 5, minEyeAdaptation := 10,
    maxEyeAdaptation := 1 / 10 }

/-- A pipeline state in the middle of a frame, after the downsample, histogram
and reduce stages have run on an empty pool. -/
def midFrameInfo (settings : PostProcessSettings) : PostProcessInfo :=
  { freshInfo settings with
    downsampledSceneTex := some { id := 0, desc := downsampleDesc (sceneTarget 1920 1080) },
    histogramTex :=
      some { id := 1,
             desc := histogramDesc sampleEngine
               { id := 0, desc := downsampleDesc (sceneTarget 1920 1080) } },
    histogramReduceTex := some { id := 2, desc := reduceDesc sampleEngine } }


/-! ## Pool lemmas -/

theorem pooled_ne_of_id_ne {a b : PooledRenderTexture} (h : a.id ≠ b.id) : a ≠ b :=
  fun e => h (by rw [e])

theorem release_first (m : Nat) (a : PooledRenderTexture) (out : List PooledRenderTexture) :
    RenderTexturePool.release { nextId := m, outstanding := a :: out } a =
      { nextId := m, outstanding := out } := by
  simp [RenderTexturePool.release]

theorem release_second (m : Nat) (a b : PooledRenderTexture) (out : List PooledRenderTexture)
    (h : a.id ≠ b.id) :
    RenderTexturePool.release { nextId := m, outstanding := a :: b :: out } b =
      { nextId := m, outstanding := a :: out } := by
  simp [RenderTexturePool.release, List.erase_cons, pooled_ne_of_id_ne h]

theorem release_third (m : Nat) (a b c : PooledRenderTexture) (out : List PooledRenderTexture)
    (h : a.id ≠ c.id) (h1 : b.id ≠ c.id) :
    RenderTexturePool.release { nextId := m, outstanding := a :: b :: c :: out } c =
      { nextId := m, outstanding := a :: b :: out } := by
  simp [RenderTexturePool.release, List.erase_cons, pooled_ne_of_id_ne h, pooled_ne_of_id_ne h1]

/-! ## The stages in closed form

Each lemma gives the result of one stage on a pool `pool` and any command list
`tr`; the material the stage leaves does not depend on `tr`. -/

theorem downsample_execute_eq (self : DownsampleMat) (target : RenderTextureCore)
    (ppInfo : PostProcessInfo) (pool : RenderTexturePool) :
    ∃ mat : DownsampleMat,
      (∀ tr : List Event, self.execute target ppInfo { pool := pool, trace := tr } =
        (mat, { ppInfo with
                downsampledSceneTex := some { id := pool.nextId, desc := downsampleDesc target } },
          { pool :=
              { nextId := pool.nextId + 1,
                outstanding := { id := pool.nextId, desc := downsampleDesc target } ::
                  pool.outstanding },
            trace := tr ++
              [Event.poolGet Slot.downsampledSceneTex
                 { id := pool.nextId, desc := downsampleDesc target },
               Event.read Stage.Downsample Slot.downsampledSceneTex,
               Event.setRenderTarget Stage.Downsample
                 (PooledRenderTexture.renderTexture
                   { id := pool.nextId, desc := downsampleDesc target }),
               Event.setPass Stage.Downsample,
               Event.drawScreenQuad Stage.Downsample,
               Event.read Stage.Downsample Slot.downsampledSceneTex] })) ∧
      mat.mOutputDesc = downsampleDesc target :=
  ⟨(self.execute target ppInfo { pool := pool, trace := [] }).1, fun _ => rfl, rfl⟩

theorem histogram_execute_eq (E : Engine) (self : EyeAdaptHistogramMat) (ppInfo : PostProcessInfo)
    (pool : RenderTexturePool) (ds : PooledRenderTexture)
    (h : ppInfo.downsampledSceneTex = some ds) :
    ∃ mat : EyeAdaptHistogramMat,
      (∀ tr : List Event, self.execute E ppInfo { pool := pool, trace := tr } =
        some (mat,
          { ppInfo with histogramTex := some { id := pool.nextId, desc := histogramDesc E ds } },
          { pool :=
              { nextId := pool.nextId + 1,
                outstanding := { id := pool.nextId, desc := histogramDesc E ds } ::
                  pool.outstanding },
            trace := tr ++
              [Event.read Stage.EyeAdaptHistogram Slot.downsampledSceneTex,
               Event.read Stage.EyeAdaptHistogram Slot.downsampledSceneTex,
               Event.poolGet Slot.histogramTex { id := pool.nextId, desc := histogramDesc E ds },
               Event.read Stage.EyeAdaptHistogram Slot.histogramTex,
               Event.dispatchCompute Stage.EyeAdaptHistogram
                 (EyeAdaptHistogramMat.getThreadGroupCount E ds.renderTexture).x
                 (EyeAdaptHistogramMat.getThreadGroupCount E ds.renderTexture).y,
               Event.read Stage.EyeAdaptHistogram Slot.histogramTex] })) ∧
      mat.gHistogramParams = EyeAdaptHistogramMat.getHistogramScaleOffset ppInfo ∧
      mat.gThreadGroupCount = EyeAdaptHistogramMat.getThreadGroupCount E ds.renderTexture ∧
      mat.mOutputDesc = histogramDesc E ds := by
  refine ⟨((self.execute E ppInfo { pool := pool, trace := [] }).map Prod.fst).getD self, ?_⟩
  unfold EyeAdaptHistogramMat.execute
  rw [h]
  exact ⟨fun _ => rfl, rfl, rfl, rfl⟩

theorem reduce_execute_eq (E : Engine) (self : EyeAdaptHistogramReduceMat)
    (ppInfo : PostProcessInfo) (pool : RenderTexturePool) (ds hi : PooledRenderTexture)
    (hd : ppInfo.downsampledSceneTex = some ds) (hh : ppInfo.histogramTex = some hi)
    (hl : ppInfo.lastEyeAdaptationTex < 2) :
    ∃ mat : EyeAdaptHistogramReduceMat,
      (∀ tr : List Event, self.execute E ppInfo { pool := pool, trace := tr } =
        some (mat,
          { ppInfo with histogramReduceTex := some { id := pool.nextId, desc := reduceDesc E } },
          { pool :=
              { nextId := pool.nextId + 1,
                outstanding := { id := pool.nextId, desc := reduceDesc E } :: pool.outstanding },
            trace := tr ++
              ([Event.read Stage.EyeAdaptHistogramReduce Slot.histogramTex] ++
               (if (if ppInfo.lastEyeAdaptationTex = 0 then ppInfo.eyeAdaptationTex.1
                     else ppInfo.eyeAdaptationTex.2).isSome then
                 [Event.read Stage.EyeAdaptHistogramReduce
                    (Slot.eyeAdaptationTex ppInfo.lastEyeAdaptationTex)] else []) ++
               [Event.read Stage.EyeAdaptHistogramReduce Slot.downsampledSceneTex,
                Event.poolGet Slot.histogramReduceTex { id := pool.nextId, desc := reduceDesc E },
                Event.read Stage.EyeAdaptHistogramReduce Slot.histogramReduceTex,
                Event.setRenderTarget Stage.EyeAdaptHistogramReduce
                  (PooledRenderTexture.renderTexture { id := pool.nextId, desc := reduceDesc E }),
                Event.setPass Stage.EyeAdaptHistogramReduce,
                Event.drawScreenQuad Stage.EyeAdaptHistogramReduce,
                Event.read Stage.EyeAdaptHistogramReduce Slot.histogramReduceTex]) })) ∧
      mat.mEyeAdaptationTex =
        some (adaptationInput ppInfo.eyeAdaptationTex ppInfo.lastEyeAdaptationTex) ∧
      mat.mOutputDesc = reduceDesc E ∧
      mat.mOutput =
        some (PooledRenderTexture.renderTexture { id := pool.nextId, desc := reduceDesc E }) := by
  refine ⟨((self.execute E ppInfo { pool := pool, trace := [] }).map Prod.fst).getD self, ?_⟩
  obtain ⟨s, d, hi0, hr, ⟨a, b⟩, l⟩ := ppInfo
  simp only at hd hh hl
  subst hd hh
  interval_cases l
  · cases a <;> exact ⟨fun _ => rfl, rfl, rfl, rfl⟩
  · cases b <;> exact ⟨fun _ => rfl, rfl, rfl, rfl⟩

theorem adaptation_execute_eq (E : Engine) (self : EyeAdaptationMat) (ppInfo : PostProcessInfo)
    (frameDelta : ℚ) (pool : RenderTexturePool) (hr : PooledRenderTexture)
    (h : ppInfo.histogramReduceTex = some hr) :
    ∃ mat : EyeAdaptationMat,
      (∀ tr : List Event, self.execute E ppInfo frameDelta { pool := pool, trace := tr } =
        some (mat,
          { ppInfo with
            eyeAdaptationTex :=
              (some (adaptationBuffers ppInfo.eyeAdaptationTex pool.nextId).1,
               some (adaptationBuffers ppInfo.eyeAdaptationTex pool.nextId).2),
            lastEyeAdaptationTex := (ppInfo.lastEyeAdaptationTex + 1) % 2 },
          { pool :=
              if texturesInitialized ppInfo.eyeAdaptationTex then pool
              else
                { nextId := pool.nextId + 2,
                  outstanding := { id := pool.nextId + 1, desc := adaptationDesc } ::
                    { id := pool.nextId, desc := adaptationDesc } :: pool.outstanding },
            trace := tr ++
              ((if texturesInitialized ppInfo.eyeAdaptationTex then [] else
                 [Event.poolGet (Slot.eyeAdaptationTex 0)
                    (adaptationBuffers ppInfo.eyeAdaptationTex pool.nextId).1,
                  Event.poolGet (Slot.eyeAdaptationTex 1)
                    (adaptationBuffers ppInfo.eyeAdaptationTex pool.nextId).2]) ++
               [Event.read Stage.EyeAdaptation Slot.histogramReduceTex,
                Event.read Stage.EyeAdaptation
                  (Slot.eyeAdaptationTex ((ppInfo.lastEyeAdaptationTex + 1) % 2)),
                Event.setRenderTarget Stage.EyeAdaptation
                  (bufferAt (adaptationBuffers ppInfo.eyeAdaptationTex pool.nextId)
                    ((ppInfo.lastEyeAdaptationTex + 1) % 2)).renderTexture,
                Event.setPass Stage.EyeAdaptation,
                Event.drawScreenQuad Stage.EyeAdaptation]) })) ∧
      mat.mReducedHistogramTex = some hr.texture ∧
      mat.gEyeAdaptationParams = adaptationParams E ppInfo frameDelta := by
  refine ⟨((self.execute E ppInfo frameDelta { pool := pool, trace := [] }).map Prod.fst).getD self,
    ?_⟩
  obtain ⟨s, d, hi, hr0, ⟨a, b⟩, l⟩ := ppInfo
  obtain ⟨n, out⟩ := pool
  simp only at h
  subst h
  rcases Nat.mod_two_eq_zero_or_one (l + 1) with hm | hm <;> cases a <;> cases b <;>
    simp [EyeAdaptationMat.execute, hm, PostProcessInfo.eyeAdaptationTexAt, texturesInitialized,
      adaptationBuffers, bufferAt, RenderTexturePool.get, adaptationDesc, adaptationParams,
      EyeAdaptHistogramMat.getHistogramScaleOffset]

theorem downsample_release_eq (self : DownsampleMat) (ppInfo : PostProcessInfo)
    (pool : RenderTexturePool) (ds : PooledRenderTexture)
    (h : ppInfo.downsampledSceneTex = some ds) :
    ∃ mat : DownsampleMat,
      (∀ tr : List Event, self.release ppInfo { pool := pool, trace := tr } =
        some (mat, ppInfo,
          { pool := pool.release ds,
            trace := tr ++ [Event.poolRelease Slot.downsampledSceneTex ds] })) ∧
      mat.mOutputDesc = self.mOutputDesc := by
  refine ⟨((self.release ppInfo { pool := pool, trace := [] }).map Prod.fst).getD self, ?_⟩
  unfold DownsampleMat.release
  rw [h]
  exact ⟨fun _ => rfl, rfl⟩

theorem histogram_release_eq (self : EyeAdaptHistogramMat) (ppInfo : PostProcessInfo)
    (pool : RenderTexturePool) (hi : PooledRenderTexture) (h : ppInfo.histogramTex = some hi) :
    ∃ mat : EyeAdaptHistogramMat,
      (∀ tr : List Event, self.release ppInfo { pool := pool, trace := tr } =
        some (mat, ppInfo,
          { pool := pool.release hi,
            trace := tr ++ [Event.poolRelease Slot.histogramTex hi] })) ∧
      mat.gHistogramParams = self.gHistogramParams ∧
      mat.gThreadGroupCount = self.gThreadGroupCount ∧
      mat.mOutputDesc = self.mOutputDesc := by
  refine ⟨((self.release ppInfo { pool := pool, trace := [] }).map Prod.fst).getD self, ?_⟩
  unfold EyeAdaptHistogramMat.release
  rw [h]
  exact ⟨fun _ => rfl, rfl, rfl, rfl⟩

theorem reduce_release_eq (self : EyeAdaptHistogramReduceMat) (ppInfo : PostProcessInfo)
    (pool : RenderTexturePool) (hr : PooledRenderTexture)
    (h : ppInfo.histogramReduceTex = some hr) :
    ∃ mat : EyeAdaptHistogramReduceMat,
      (∀ tr : List Event, self.release ppInfo { pool := pool, trace := tr } =
        some (mat, ppInfo,
          { pool := pool.release hr,
            trace := tr ++ [Event.poolRelease Slot.histogramReduceTex hr] })) ∧
      mat.mEyeAdaptationTex = self.mEyeAdaptationTex ∧
      mat.mOutputDesc = self.mOutputDesc := by
  refine ⟨((self.release ppInfo { pool := pool, trace := [] }).map Prod.fst).getD self, ?_⟩
  unfold EyeAdaptHistogramReduceMat.release
  rw [h]
  exact ⟨fun _ => rfl, rfl, rfl⟩

/-! ## One frame in closed form -/

theorem postProcess_eq (E : Engine) (self : PostProcessing) (target : RenderTextureCore)
    (ppInfo : PostProcessInfo) (frameDelta : ℚ) (w : World)
    (h : ppInfo.lastEyeAdaptationTex < 2) :
    ∃ post : PostProcessing,
      PostProcessing.postProcess E self target ppInfo frameDelta w =
        some (post, frameInfo E target ppInfo w.pool.nextId,
          { pool := framePool ppInfo w.pool,
            trace := w.trace ++ frameEvents E target ppInfo.eyeAdaptationTex
              ppInfo.lastEyeAdaptationTex w.pool.nextId }) ∧
      FrameMaterials E target ppInfo frameDelta post := by
  obtain ⟨s, d, hi, hr, ea, l⟩ := ppInfo
  obtain ⟨⟨n, out⟩, tr⟩ := w
  simp only at h
  obtain ⟨m1, e1, f1⟩ := downsample_execute_eq self.mDownsample target ⟨s, d, hi, hr, ea, l⟩ ⟨n, out⟩
  obtain ⟨m2, e2, f2, -, -⟩ := histogram_execute_eq E self.mEyeAdaptHistogram
    ⟨s, some ⟨n, downsampleDesc target⟩, hi, hr, ea, l⟩
    ⟨n + 1, ⟨n, downsampleDesc target⟩ :: out⟩ _ rfl
  obtain ⟨m3, e3, f3⟩ := downsample_release_eq m1
    ⟨s, some ⟨n, downsampleDesc target⟩, some ⟨n + 1, histogramDesc E ⟨n, downsampleDesc target⟩⟩,
      hr, ea, l⟩
    ⟨n + 1 + 1, ⟨n + 1, histogramDesc E ⟨n, downsampleDesc target⟩⟩ ::
      ⟨n, downsampleDesc target⟩ :: out⟩ _ rfl
  rw [release_second _ _ _ _ (by dsimp only; omega)] at e3
  obtain ⟨m4, e4, f4, g4, -⟩ := reduce_execute_eq E self.mEyeAdaptHistogramReduce
    ⟨s, some ⟨n, downsampleDesc target⟩, some ⟨n + 1, histogramDesc E ⟨n, downsampleDesc target⟩⟩,
      hr, ea, l⟩
    ⟨n + 1 + 1, ⟨n + 1, histogramDesc E ⟨n, downsampleDesc target⟩⟩ :: out⟩ _ _ rfl rfl h
  obtain ⟨m5, e5, f5, -, -⟩ := histogram_release_eq m2
    ⟨s, some ⟨n, downsampleDesc target⟩, some ⟨n + 1, histogramDesc E ⟨n, downsampleDesc target⟩⟩,
      some ⟨n + 1 + 1, reduceDesc E⟩, ea, l⟩
    ⟨n + 1 + 1 + 1, ⟨n + 1 + 1, reduceDesc E⟩ ::
      ⟨n + 1, histogramDesc E ⟨n, downsampleDesc target⟩⟩ :: out⟩ _ rfl
  rw [release_second _ _ _ _ (by dsimp only; omega)] at e5
  obtain ⟨m6, e6, -, f6⟩ := adaptation_execute_eq E self.mEyeAdaptation
    ⟨s, some ⟨n, downsampleDesc target⟩, some ⟨n + 1, histogramDesc E ⟨n, downsampleDesc target⟩⟩,
      some ⟨n + 1 + 1, reduceDesc E⟩, ea, l⟩ frameDelta
    ⟨n + 1 + 1 + 1, ⟨n + 1 + 1, reduceDesc E⟩ :: out⟩ _ rfl
  obtain ⟨m7, e7, f7, g7⟩ := reduce_release_eq m4
    ⟨s, some ⟨n, downsampleDesc target⟩, some ⟨n + 1, histogramDesc E ⟨n, downsampleDesc target⟩⟩,
      some ⟨n + 1 + 1, reduceDesc E⟩,
      (some (adaptationBuffers ea (n + 1 + 1 + 1)).1, some (adaptationBuffers ea (n + 1 + 1 + 1)).2),
      (l + 1) % 2⟩
    (if texturesInitialized ea then ⟨n + 1 + 1 + 1, ⟨n + 1 + 1, reduceDesc E⟩ :: out⟩
      else ⟨n + 1 + 1 + 1 + 2, ⟨n + 1 + 1 + 1 + 1, adaptationDesc⟩ ::
        ⟨n + 1 + 1 + 1, adaptationDesc⟩ :: ⟨n + 1 + 1, reduceDesc E⟩ :: out⟩) _ rfl
  refine ⟨⟨m3, m5, m7, m6⟩, ?_, ⟨?_, ?_, ?_, ?_, ?_⟩⟩
  · dsimp only at e1 e2 e3 e4 e5 e6 e7
    simp only [PostProcessing.postProcess, e1, e2, e3, e4, e5, e6, e7, bind, Option.bind, pure]
    refine congrArg some (congrArg (Prod.mk _) (congr (congrArg Prod.mk rfl)
      (congr (congrArg World.mk ?_) ?_)))
    · by_cases hinit : texturesInitialized ea = true
      · simp only [hinit, if_true, framePool, release_first]
      · rw [if_neg hinit, release_third _ _ _ _ _ (by dsimp only; omega) (by dsimp only; omega)]
        simp only [hinit, framePool]
        rfl
    · simp only [frameEvents, List.append_assoc, List.cons_append, List.nil_append]
  · rw [f3]; exact f1
  · rw [f5]; exact f2
  · rw [f7]; exact f4
  · rw [g7]; exact g4
  · exact f6


/-! ## Arithmetic lemmas -/

theorem INT32_wrap_of_range (v : Int) (h0 : -2 ^ 31 ≤ v) (h1 : v < 2 ^ 31) : INT32.wrap v = v := by
  unfold INT32.wrap
  norm_num at h0 h1 ⊢
  omega

theorem INT32_wrap_range (v : Int) : -2 ^ 31 ≤ INT32.wrap v ∧ INT32.wrap v < 2 ^ 31 := by
  unfold INT32.wrap
  norm_num
  omega

theorem INT32_wrap_emod (v : Int) : INT32.wrap v % 2 ^ 32 = v % 2 ^ 32 := by
  unfold INT32.wrap
  norm_num
  omega

theorem UINT32_wrap_of_range (v : Int) (h0 : 0 ≤ v) (h1 : v < 2 ^ 32) : UINT32.wrap v = v.toNat := by
  unfold UINT32.wrap
  rw [Int.emod_eq_of_lt h0 h1]

theorem stdMax_eq_max {α : Type} [LinearOrder α] (a b : α) : stdMax a b = max a b := by
  unfold stdMax
  split_ifs with h
  · exact (max_eq_right h.le).symm
  · exact (max_eq_left (not_lt.mp h)).symm

theorem stdMin_eq_min {α : Type} [LinearOrder α] (a b : α) : stdMin a b = min a b := by
  unfold stdMin
  split_ifs with h
  · exact (min_eq_right h.le).symm
  · exact (min_eq_left (not_lt.mp h)).symm

theorem ulpExp_of_lt (fuel n : Nat) (h : n < 2 ^ 24) : ulpExp fuel n = 0 := by
  cases fuel with
  | zero => rfl
  | succ f => rw [ulpExp, if_pos h]

theorem toFloatNat_of_lt (n : Nat) (h : n < 2 ^ 24) : toFloatNat n = n := by
  simp [toFloatNat, ulpExp_of_lt n n h, Nat.mod_one]

theorem toFloatNat_of_le (n : Nat) (h : n ≤ 2 ^ 24) : toFloatNat n = n := by
  rcases Nat.lt_or_ge n (2 ^ 24) with h1 | h1
  · exact toFloatNat_of_lt n h1
  · have : n = 16777216 := by norm_num at h h1; omega
    subst this
    decide

theorem ceil_half (m : Nat) : ⌈(m : ℚ) * (1 / 2)⌉ = (((m + 1) / 2 : Nat) : Int) := by
  rw [Int.ceil_eq_iff]
  rcases Nat.even_or_odd' m with ⟨k, hk | hk⟩
  · have e : (m + 1) / 2 = k := by omega
    rw [e, hk]
    push_cast
    constructor <;> linarith
  · have e : (m + 1) / 2 = k + 1 := by omega
    rw [e, hk]
    push_cast
    constructor <;> linarith

theorem ceil_div_nat (w t : Nat) (ht : 0 < t) :
    ⌈(w : ℚ) / (t : ℚ)⌉ = (((w + t - 1) / t : Nat) : Int) := by
  rw [Int.ceil_eq_iff]
  have htq : (0 : ℚ) < (t : ℚ) := by exact_mod_cast ht
  obtain ⟨q, r, hr, hw⟩ : ∃ q r, r < t ∧ w = t * q + r :=
    ⟨w / t, w % t, Nat.mod_lt _ ht, (Nat.div_add_mod w t).symm⟩
  rcases Nat.eq_zero_or_pos r with h0 | h0
  · subst h0
    have e : (w + t - 1) / t = q := by
      have : w + t - 1 = (t - 1) + t * q := by omega
      rw [this, Nat.add_mul_div_left _ _ ht, Nat.div_eq_of_lt (by omega)]
      omega
    rw [e, hw]
    push_cast
    rw [add_zero, mul_div_cancel_left₀ _ htq.ne']
    constructor <;> linarith
  · have e : (w + t - 1) / t = q + 1 := by
      have : w + t - 1 = (r - 1) + t * (q + 1) := by
        rw [hw, Nat.mul_add]; omega
      rw [this, Nat.add_mul_div_left _ _ ht, Nat.div_eq_of_lt (by omega)]
      omega
    rw [e, hw]
    push_cast
    have hrq : (0 : ℚ) < (r : ℚ) := by exact_mod_cast h0
    have hrt : (r : ℚ) < (t : ℚ) := by exact_mod_cast hr
    constructor
    · rw [lt_div_iff₀ htq]; nlinarith
    · rw [div_le_iff₀ htq]; nlinarith

/-- The size `DownsampleMat::execute` computes from one dimension of the input. -/
theorem downsampleDim_range (n : Nat) :
    1 ≤ UINT32.wrap (stdMax 1 (Math.ceilToInt (toFloat n * (1 / 2)))) ∧
      UINT32.wrap (stdMax 1 (Math.ceilToInt (toFloat n * (1 / 2)))) < 2 ^ 31 := by
  have hr := INT32_wrap_range ⌈toFloat n * (1 / 2)⌉
  have h1 : (1 : Int) ≤ stdMax 1 (Math.ceilToInt (toFloat n * (1 / 2))) := by
    rw [stdMax_eq_max]; exact le_max_left _ _
  have h2 : stdMax 1 (Math.ceilToInt (toFloat n * (1 / 2))) < 2 ^ 31 := by
    rw [stdMax_eq_max]; exact max_lt (by norm_num) hr.2
  rw [UINT32_wrap_of_range _ (by linarith) (by norm_num at h2 ⊢; linarith)]
  norm_num at h2 ⊢
  omega

theorem downsampleDim_eq (n : Nat) (h1 : 1 ≤ n) (h2 : n ≤ 2 ^ 24) :
    UINT32.wrap (stdMax 1 (Math.ceilToInt (toFloat n * (1 / 2)))) = max 1 ⌈(n : ℚ) / 2⌉.toNat := by
  have e1 : toFloat n = (n : ℚ) := by unfold toFloat; rw [toFloatNat_of_le n h2]
  have e2 : (n : ℚ) / 2 = (n : ℚ) * (1 / 2) := by ring
  rw [e1, e2]
  unfold Math.ceilToInt
  rw [ceil_half]
  norm_num at h2
  have hb : (n + 1) / 2 < 2 ^ 31 := by norm_num; omega
  have hp : 1 ≤ (n + 1) / 2 := by omega
  rw [INT32_wrap_of_range _ (by norm_num; omega) (by exact_mod_cast hb), stdMax_eq_max,
    max_eq_right (by exact_mod_cast hp),
    UINT32_wrap_of_range _ (by positivity) (by norm_num; omega)]
  simp only [Int.toNat_ofNat]
  omega

theorem downsampleDim_big :
    UINT32.wrap (stdMax 1 (Math.ceilToInt (toFloat 16777217 * (1 / 2)))) = 8388608 := by
  have e1 : toFloat 16777217 = ((16777216 : Nat) : ℚ) := by
    unfold toFloat
    have : toFloatNat 16777217 = 16777216 := by decide
    rw [this]
  rw [e1]
  unfold Math.ceilToInt
  rw [ceil_half]
  decide


theorem UINT32_wrap_natCast (t : Nat) (h : t < 2 ^ 32) : UINT32.wrap (t : Int) = t := by
  rw [UINT32_wrap_of_range _ (by positivity) (by exact_mod_cast h)]
  simp

theorem UINT32_wrap_sum (w t : Nat) (ht : 1 ≤ t) (h : w + t ≤ 2 ^ 32) :
    UINT32.wrap (INT32.wrap (w : Int) + (t : Int) - 1) = w + t - 1 := by
  unfold UINT32.wrap INT32.wrap
  norm_num at h ⊢
  omega

/-- One axis of `getThreadGroupCount`, away from 32-bit wrap-around. -/
theorem threadGroupAxis (w : Nat) (T : Int) (hT : 1 ≤ T) (hw : 1 ≤ w)
    (ho : (w : Int) + T ≤ 2 ^ 32) (hq : ((w : Int) + T - 1) / T < 2 ^ 31) :
    INT32.wrap ((UINT32.wrap (INT32.wrap (w : Int) + (UINT32.wrap T : Nat) - 1) / UINT32.wrap T : Nat) : Int)
        = ⌈(w : ℚ) / (T : ℚ)⌉ ∧
      1 ≤ INT32.wrap
        ((UINT32.wrap (INT32.wrap (w : Int) + (UINT32.wrap T : Nat) - 1) / UINT32.wrap T : Nat) : Int) := by
  lift T to Nat using (by linarith)
  have ht : 1 ≤ T := by exact_mod_cast hT
  have ho' : w + T ≤ 2 ^ 32 := by exact_mod_cast ho
  have hT32 : T < 2 ^ 32 := by omega
  rw [UINT32_wrap_natCast T hT32, UINT32_wrap_sum w T ht ho']
  have hq' : (w + T - 1) / T < 2 ^ 31 := by
    have e : ((w : Int) + (T : Int) - 1) = ((w + T - 1 : Nat) : Int) := by
      rw [Nat.cast_sub (by omega)]; push_cast; ring
    rw [e] at hq
    exact_mod_cast hq
  have hpos : 1 ≤ (w + T - 1) / T := by
    rw [Nat.le_div_iff_mul_le (by omega)]
    omega
  rw [INT32_wrap_of_range _ (by have := Int.natCast_nonneg ((w + T - 1) / T); norm_num; linarith)
    (by exact_mod_cast hq')]
  refine ⟨?_, by exact_mod_cast hpos⟩
  have := ceil_div_nat w T (by omega)
  rw [Int.cast_natCast, this]


/-! ## Claims on the single stages -/

/-- C5, counterexample.  For a scene colour texture 16777217 texels wide,
`DownsampleMat::execute` asks for a width of 8388608, while
`max(1, ceil(16777217 / 2))` is 8388609: the width does not survive the
conversion to `float`. -/
theorem downsample_width_float_rounding :
    (DownsampleMat.execute freshPostProcessing.mDownsample (sceneTarget 16777217 1)
        (freshInfo sampleSettings) emptyWorld).1.mOutputDesc.width = 8388608 ∧
      max 1 ⌈((16777217 : Nat) : ℚ) / 2⌉.toNat = 8388609 := by
  constructor
  · exact downsampleDim_big
  · have e : ((16777217 : Nat) : ℚ) / 2 = ((16777217 : Nat) : ℚ) * (1 / 2) := by ring
    rw [e, ceil_half]
    decide

/-- C5, amended.  For a scene colour texture whose width and height lie
between 1 and 2^24, `DownsampleMat::execute` requests from the pool a descriptor
with width `max(1, ceil(w/2))`, height `max(1, ceil(h/2))`, the pixel format of
the input and usage render-target; the handle it gets is stored in
`downsampledSceneTex`. -/
theorem downsample_output_desc (self : DownsampleMat) (target : RenderTextureCore)
    (ppInfo : PostProcessInfo) (w : World)
    (hw1 : 1 ≤ target.getBindableColorTexture.props.width)
    (hw2 : target.getBindableColorTexture.props.width ≤ 2 ^ 24)
    (hh1 : 1 ≤ target.getBindableColorTexture.props.height)
    (hh2 : target.getBindableColorTexture.props.height ≤ 2 ^ 24) :
    (self.execute target ppInfo w).1.mOutputDesc =
        { format := target.getBindableColorTexture.props.format,
          width := max 1 ⌈(target.getBindableColorTexture.props.width : ℚ) / 2⌉.toNat,
          height := max 1 ⌈(target.getBindableColorTexture.props.height : ℚ) / 2⌉.toNat,
          flag := TextureUsage.TU_RENDERTARGET } ∧
      (self.execute target ppInfo w).2.1.downsampledSceneTex =
        some { id := w.pool.nextId, desc := (self.execute target ppInfo w).1.mOutputDesc } ∧
      (self.execute target ppInfo w).2.2.pool.outstanding =
        { id := w.pool.nextId, desc := (self.execute target ppInfo w).1.mOutputDesc } ::
          w.pool.outstanding := by
  refine ⟨?_, rfl, rfl⟩
  show POOLED_RENDER_TEXTURE_DESC.create2D _ _ _ _ = _
  rw [downsampleDim_eq _ hw1 hw2, downsampleDim_eq _ hh1 hh2]
  rfl

/-- C5, witness: a 1920×1080 scene colour texture. -/
theorem downsample_output_desc_witness :
    (DownsampleMat.execute freshPostProcessing.mDownsample (sceneTarget 1920 1080)
        (freshInfo sampleSettings) emptyWorld).1.mOutputDesc =
      { format := PixelFormat.PF_OTHER 1,
        width := max 1 ⌈((1920 : Nat) : ℚ) / 2⌉.toNat,
        height := max 1 ⌈((1080 : Nat) : ℚ) / 2⌉.toNat,
        flag := TextureUsage.TU_RENDERTARGET } :=
  (downsample_output_desc freshPostProcessing.mDownsample (sceneTarget 1920 1080)
    (freshInfo sampleSettings) emptyWorld (by decide) (by decide) (by decide) (by decide)).1

/-- C6, counterexample.  With 8 × 8 texels per thread group on the X axis, a
render target 4294967233 = 2^32 − 63 texels wide gets a thread-group count of 0:
the sum `width + 64 − 1` wraps around to 0 in 32-bit arithmetic.  The count
`ceil(4294967233 / 64)` is 67108864. -/
theorem threadGroupCount_wraps_to_zero :
    (EyeAdaptHistogramMat.getThreadGroupCount sampleEngine (sceneTarget 4294967233 1)).x = 0 ∧
      ⌈((4294967233 : Nat) : ℚ) / ((64 : Nat) : ℚ)⌉ = 67108864 := by
  constructor
  · decide
  · rw [ceil_div_nat _ _ (by decide)]
    decide


theorem dispatchesOf_frameEvents (E : Engine) (target : RenderTextureCore)
    (ea : Option PooledRenderTexture × Option PooledRenderTexture) (last n : Nat) :
    dispatchesOf (frameEvents E target ea last n) =
      [((EyeAdaptHistogramMat.getThreadGroupCount E
            (PooledRenderTexture.renderTexture { id := n, desc := downsampleDesc target })).x,
        (EyeAdaptHistogramMat.getThreadGroupCount E
            (PooledRenderTexture.renderTexture { id := n, desc := downsampleDesc target })).y)] := by
  unfold frameEvents
  split_ifs <;> rfl

theorem ediv_bound (d T : Int) (hd2 : d < 2 ^ 31) (hT : 1 ≤ T) :
    (d + T - 1) / T < 2 ^ 31 := by
  apply Int.ediv_lt_of_lt_mul (by linarith)
  norm_num at hd2 ⊢
  nlinarith

/-- C6, amended.  Let `T` be `THREAD_GROUP_SIZE × LOOP_COUNT` on an axis, with
`1 ≤ T ≤ 2^31`.  For a render target whose dimension on that axis is at least 1,
with `dimension + T ≤ 2^32` and a quotient below 2^31 (no 32-bit wrap-around),
`getThreadGroupCount` returns exactly `ceil(dimension / T)`, which is at least 1.
Inside `postProcess` the dispatch of `EyeAdaptHistogramMat::execute` has at
least one group on each axis, for every scene target. -/
theorem threadGroupCount_spec (E : Engine) (target : RenderTextureCore) (post : PostProcessing)
    (scene : RenderTextureCore) (ppInfo : PostProcessInfo) (frameDelta : ℚ)
    (pool : RenderTexturePool)
    (hTx1 : 1 ≤ E.THREAD_GROUP_SIZE_X * E.LOOP_COUNT_X)
    (hTx2 : E.THREAD_GROUP_SIZE_X * E.LOOP_COUNT_X ≤ 2 ^ 31)
    (hTy1 : 1 ≤ E.THREAD_GROUP_SIZE_Y * E.LOOP_COUNT_Y)
    (hTy2 : E.THREAD_GROUP_SIZE_Y * E.LOOP_COUNT_Y ≤ 2 ^ 31)
    (hw : 1 ≤ target.getProperties.width) (hh : 1 ≤ target.getProperties.height)
    (hwo : (target.getProperties.width : Int) + E.THREAD_GROUP_SIZE_X * E.LOOP_COUNT_X ≤ 2 ^ 32)
    (hho : (target.getProperties.height : Int) + E.THREAD_GROUP_SIZE_Y * E.LOOP_COUNT_Y ≤ 2 ^ 32)
    (hwq : ((target.getProperties.width : Int) + E.THREAD_GROUP_SIZE_X * E.LOOP_COUNT_X - 1) /
      (E.THREAD_GROUP_SIZE_X * E.LOOP_COUNT_X) < 2 ^ 31)
    (hhq : ((target.getProperties.height : Int) + E.THREAD_GROUP_SIZE_Y * E.LOOP_COUNT_Y - 1) /
      (E.THREAD_GROUP_SIZE_Y * E.LOOP_COUNT_Y) < 2 ^ 31)
    (hl : ppInfo.lastEyeAdaptationTex < 2) :
    ((EyeAdaptHistogramMat.getThreadGroupCount E target).x =
        ⌈(target.getProperties.width : ℚ) /
          ((E.THREAD_GROUP_SIZE_X * E.LOOP_COUNT_X : Int) : ℚ)⌉ ∧
      (EyeAdaptHistogramMat.getThreadGroupCount E target).y =
        ⌈(target.getProperties.height : ℚ) /
          ((E.THREAD_GROUP_SIZE_Y * E.LOOP_COUNT_Y : Int) : ℚ)⌉ ∧
      1 ≤ (EyeAdaptHistogramMat.getThreadGroupCount E target).x ∧
      1 ≤ (EyeAdaptHistogramMat.getThreadGroupCount E target).y) ∧
    ∃ (r : PostProcessing × PostProcessInfo × World) (x y : Int),
      PostProcessing.postProcess E post scene ppInfo frameDelta { pool := pool, trace := [] } =
        some r ∧
      dispatchesOf r.2.2.trace = [(x, y)] ∧ 1 ≤ x ∧ 1 ≤ y := by
  constructor
  · have hx := threadGroupAxis target.getProperties.width _ hTx1 hw hwo hwq
    have hy := threadGroupAxis target.getProperties.height _ hTy1 hh hho hhq
    exact ⟨hx.1, hy.1, hx.2, hy.2⟩
  · obtain ⟨p, e, -⟩ := postProcess_eq E post scene ppInfo frameDelta { pool := pool, trace := [] } hl
    refine ⟨_,
      (EyeAdaptHistogramMat.getThreadGroupCount E
        (PooledRenderTexture.renderTexture { id := pool.nextId, desc := downsampleDesc scene })).x,
      (EyeAdaptHistogramMat.getThreadGroupCount E
        (PooledRenderTexture.renderTexture { id := pool.nextId, desc := downsampleDesc scene })).y,
      e, ?_, ?_, ?_⟩
    · simp only [List.nil_append]
      exact dispatchesOf_frameEvents E scene _ _ _
    · have hr := downsampleDim_range scene.getBindableColorTexture.props.width
      have h2 : (((UINT32.wrap (stdMax 1 (Math.ceilToInt
          (toFloat scene.getBindableColorTexture.props.width * (1 / 2)))) : Nat) : Int)) < 2 ^ 31 := by
        exact_mod_cast hr.2
      exact (threadGroupAxis _ _ hTx1 hr.1 (by norm_num at h2 hTx2 ⊢; linarith)
        (ediv_bound _ _ h2 hTx1)).2
    · have hr := downsampleDim_range scene.getBindableColorTexture.props.height
      have h2 : (((UINT32.wrap (stdMax 1 (Math.ceilToInt
          (toFloat scene.getBindableColorTexture.props.height * (1 / 2)))) : Nat) : Int)) < 2 ^ 31 := by
        exact_mod_cast hr.2
      exact (threadGroupAxis _ _ hTy1 hr.1 (by norm_num at h2 hTy2 ⊢; linarith)
        (ediv_bound _ _ h2 hTy1)).2

/-- C6, witness: a 3×1080 render target, and the first frame on a 1920×1080 scene. -/
theorem threadGroupCount_spec_witness :
    ((EyeAdaptHistogramMat.getThreadGroupCount sampleEngine (sceneTarget 3 1080)).x =
        ⌈(((3 : Nat) : ℚ)) / ((((8 : Int) * 8 : Int)) : ℚ)⌉ ∧
      (EyeAdaptHistogramMat.getThreadGroupCount sampleEngine (sceneTarget 3 1080)).y =
        ⌈(((1080 : Nat) : ℚ)) / ((((8 : Int) * 8 : Int)) : ℚ)⌉ ∧
      1 ≤ (EyeAdaptHistogramMat.getThreadGroupCount sampleEngine (sceneTarget 3 1080)).x ∧
      1 ≤ (EyeAdaptHistogramMat.getThreadGroupCount sampleEngine (sceneTarget 3 1080)).y) ∧
    ∃ (r : PostProcessing × PostProcessInfo × World) (x y : Int),
      PostProcessing.postProcess sampleEngine freshPostProcessing (sceneTarget 1920 1080)
          (freshInfo sampleSettings) (2 / 125) { pool := emptyWorld.pool, trace := [] } = some r ∧
      dispatchesOf r.2.2.trace = [(x, y)] ∧ 1 ≤ x ∧ 1 ≤ y :=
  threadGroupCount_spec sampleEngine (sceneTarget 3 1080) freshPostProcessing
    (sceneTarget 1920 1080) (freshInfo sampleSettings) (2 / 125) emptyWorld.pool
    (by decide) (by decide) (by decide) (by decide) (by decide) (by decide) (by decide)
    (by decide) (by decide) (by decide) (by decide)

theorem stdMinFloat_le_right (a b : FloatValue) (ha : a ≠ FloatValue.nan)
    (hb : b ≠ FloatValue.nan) : FloatValue.le (stdMinFloat a b) b = true := by
  cases a <;> cases b <;> simp_all [stdMinFloat, FloatValue.lt, FloatValue.le]
  rename_i x y
  split_ifs with h
  · simp [FloatValue.le]
  · simp only [FloatValue.le, decide_eq_true_eq]
    exact not_lt.mp h

theorem stdMinFloat_num (a b : ℚ) :
    stdMinFloat (FloatValue.num a) (FloatValue.num b) = FloatValue.num (stdMin a b) := by
  unfold stdMinFloat stdMin
  simp only [FloatValue.lt, decide_eq_true_eq]
  split_ifs <;> rfl

theorem stdMaxFloat_num (a b : ℚ) :
    stdMaxFloat (FloatValue.num a) (FloatValue.num b) = FloatValue.num (stdMax a b) := by
  unfold stdMaxFloat stdMax
  simp only [FloatValue.lt, decide_eq_true_eq]
  split_ifs <;> rfl

theorem clamp01Float_num (a : ℚ) :
    Math.clamp01Float (FloatValue.num a) = FloatValue.num (Math.clamp01 a) := by
  unfold Math.clamp01Float Math.clamp01
  rw [stdMinFloat_num, stdMaxFloat_num]

theorem clamp01Float_ne_nan (a : FloatValue) (ha : a ≠ FloatValue.nan) :
    Math.clamp01Float a ≠ FloatValue.nan := by
  cases a with
  | nan => exact absurd rfl ha
  | negInf => simp [Math.clamp01Float, stdMinFloat, stdMaxFloat, FloatValue.lt]
  | posInf =>
    simp only [Math.clamp01Float, stdMinFloat, stdMaxFloat, FloatValue.lt]
    split_ifs <;> simp
  | num q => rw [clamp01Float_num]; simp

/-- On numbers the bounds over `float` values are the bounds of the rational
model. -/
theorem executeBounds_num (lo hi mn mx : ℚ) :
    EyeAdaptationMat.executeBounds (FloatValue.num lo) (FloatValue.num hi) (FloatValue.num mn)
        (FloatValue.num mx) =
      { params0z := FloatValue.num (stdMin (Math.clamp01 lo) (Math.clamp01 hi)),
        params0w := FloatValue.num (Math.clamp01 hi),
        params1x := FloatValue.num (stdMin mn mx),
        params1y := FloatValue.num mx } := by
  unfold EyeAdaptationMat.executeBounds
  simp only [clamp01Float_num, stdMinFloat_num]

/-- C8, counterexample.  With `maxEyeAdaptation` NaN and the other settings of
the sample, `std::min(minEyeAdaptation, maxEyeAdaptation)` is `minEyeAdaptation`
(the comparison with NaN is false), so the parameters hold (1/10, NaN), and
`1/10 <= NaN` is false. -/
theorem adaptation_bounds_nan_unordered :
    EyeAdaptationMat.executeBounds (FloatValue.num (1 / 5)) (FloatValue.num (4 / 5))
        (FloatValue.num (1 / 10)) FloatValue.nan =
      { params0z := FloatValue.num (1 / 5), params0w := FloatValue.num (4 / 5),
        params1x := FloatValue.num (1 / 10), params1y := FloatValue.nan } ∧
    FloatValue.le (FloatValue.num (1 / 10)) FloatValue.nan = false := by
  refine ⟨?_, rfl⟩
  unfold EyeAdaptationMat.executeBounds
  simp only [clamp01Float_num, stdMinFloat_num]
  have h1 : Math.clamp01 (1 / 5 : ℚ) = 1 / 5 := by
    unfold Math.clamp01 stdMax stdMin; norm_num
  have h2 : Math.clamp01 (4 / 5 : ℚ) = 4 / 5 := by
    unfold Math.clamp01 stdMax stdMin; norm_num
  have h3 : stdMin (1 / 5 : ℚ) (4 / 5) = 1 / 5 := by
    unfold stdMin; norm_num
  rw [h1, h2, h3]
  rfl

/-- C8, amended.  For every settings value in which `histogramPctLow`,
`histogramPctHigh`, `minEyeAdaptation` and `maxEyeAdaptation` are not NaN
(infinite values, `histogramPctLow > histogramPctHigh` and
`minEyeAdaptation > maxEyeAdaptation` included), the bounds
`EyeAdaptationMat::execute` writes into the shader parameters are ordered:
`params[0].z <= params[0].w` and `params[1].x <= params[1].y`.  On numbers these
bounds are the ones the stage stores in `gEyeAdaptationParams`. -/
theorem adaptation_bounds_ordered (E : Engine) (self : EyeAdaptationMat)
    (ppInfo : PostProcessInfo) (frameDelta : ℚ) (w : World) (hr : PooledRenderTexture)
    (histogramPctLow histogramPctHigh minEyeAdaptation maxEyeAdaptation : FloatValue)
    (h : ppInfo.histogramReduceTex = some hr)
    (hlo : histogramPctLow ≠ FloatValue.nan) (hhi : histogramPctHigh ≠ FloatValue.nan)
    (hmn : minEyeAdaptation ≠ FloatValue.nan) (hmx : maxEyeAdaptation ≠ FloatValue.nan) :
    FloatValue.le
        (EyeAdaptationMat.executeBounds histogramPctLow histogramPctHigh minEyeAdaptation
          maxEyeAdaptation).params0z
        (EyeAdaptationMat.executeBounds histogramPctLow histogramPctHigh minEyeAdaptation
          maxEyeAdaptation).params0w = true ∧
      FloatValue.le
        (EyeAdaptationMat.executeBounds histogramPctLow histogramPctHigh minEyeAdaptation
          maxEyeAdaptation).params1x
        (EyeAdaptationMat.executeBounds histogramPctLow histogramPctHigh minEyeAdaptation
          maxEyeAdaptation).params1y = true ∧
      ∃ (r : EyeAdaptationMat × PostProcessInfo × World) (p0 p1 p2 : Vector4),
        self.execute E ppInfo frameDelta w = some r ∧
        r.1.gEyeAdaptationParams = [p0, p1, p2] ∧ p0.z ≤ p0.w ∧ p1.x ≤ p1.y ∧
        EyeAdaptationMat.executeBounds (FloatValue.num ppInfo.settings.histogramPctLow)
            (FloatValue.num ppInfo.settings.histogramPctHigh)
            (FloatValue.num ppInfo.settings.minEyeAdaptation)
            (FloatValue.num ppInfo.settings.maxEyeAdaptation) =
          { params0z := FloatValue.num p0.z, params0w := FloatValue.num p0.w,
            params1x := FloatValue.num p1.x, params1y := FloatValue.num p1.y } := by
  refine ⟨?_, ?_, ?_⟩
  · exact stdMinFloat_le_right _ _ (clamp01Float_ne_nan _ hlo) (clamp01Float_ne_nan _ hhi)
  · exact stdMinFloat_le_right _ _ hmn hmx
  · obtain ⟨m, e, -, f⟩ := adaptation_execute_eq E self ppInfo frameDelta w.pool hr h
    refine ⟨_, _, _, _, e w.trace, f, ?_, ?_, executeBounds_num _ _ _ _⟩
    · show stdMin _ _ ≤ _
      rw [stdMin_eq_min]
      exact min_le_right _ _
    · show stdMin _ _ ≤ _
      rw [stdMin_eq_min]
      exact min_le_right _ _

/-- C8, witness: bounds given in the wrong order, one of them infinite. -/
theorem adaptation_bounds_ordered_witness :
    FloatValue.lt (FloatValue.num (1 / 5)) (FloatValue.num (4 / 5)) = true ∧
      FloatValue.lt (FloatValue.num (1 / 10)) FloatValue.posInf = true ∧
      FloatValue.le
        (EyeAdaptationMat.executeBounds (FloatValue.num (4 / 5)) (FloatValue.num (1 / 5))
          FloatValue.posInf (FloatValue.num (1 / 10))).params0z
        (EyeAdaptationMat.executeBounds (FloatValue.num (4 / 5)) (FloatValue.num (1 / 5))
          FloatValue.posInf (FloatValue.num (1 / 10))).params0w = true ∧
      FloatValue.le
        (EyeAdaptationMat.executeBounds (FloatValue.num (4 / 5)) (FloatValue.num (1 / 5))
          FloatValue.posInf (FloatValue.num (1 / 10))).params1x
        (EyeAdaptationMat.executeBounds (FloatValue.num (4 / 5)) (FloatValue.num (1 / 5))
          FloatValue.posInf (FloatValue.num (1 / 10))).params1y = true ∧
      (midFrameInfo swappedSettings).settings.histogramPctHigh <
        (midFrameInfo swappedSettings).settings.histogramPctLow ∧
      (midFrameInfo swappedSettings).settings.maxEyeAdaptation <
        (midFrameInfo swappedSettings).settings.minEyeAdaptation ∧
      ∃ (r : EyeAdaptationMat × PostProcessInfo × World) (p0 p1 p2 : Vector4),
        EyeAdaptationMat.execute sampleEngine freshPostProcessing.mEyeAdaptation
            (midFrameInfo swappedSettings) (2 / 125) emptyWorld = some r ∧
        r.1.gEyeAdaptationParams = [p0, p1, p2] ∧ p0.z ≤ p0.w ∧ p1.x ≤ p1.y := by
  have hw := adaptation_bounds_ordered sampleEngine freshPostProcessing.mEyeAdaptation
    (midFrameInfo swappedSettings) (2 / 125) emptyWorld _ (FloatValue.num (4 / 5))
    (FloatValue.num (1 / 5)) FloatValue.posInf (FloatValue.num (1 / 10)) rfl
    (by simp) (by simp) (by simp) (by simp)
  obtain ⟨h1, h2, r, p0, p1, p2, e, f, o1, o2, -⟩ := hw
  refine ⟨?_, rfl, h1, h2, ?_, ?_, r, p0, p1, p2, e, f, o1, o2⟩
  · simp only [FloatValue.lt, decide_eq_true_eq]
    norm_num
  · norm_num [midFrameInfo, swappedSettings, freshInfo]
  · norm_num [midFrameInfo, swappedSettings, freshInfo]

/-- C9, the code at any pipeline state in which the earlier stages have run.
`EyeAdaptHistogramReduceMat::execute` acquires one handle, with a descriptor of
width `HISTOGRAM_NUM_TEXELS` and height 2, sets that handle as its render target
and draws one full-screen quad into it; the usage of the descriptor is
`TU_LOADSTORE`, not render-target. -/
theorem reduce_output_usage_loadstore (E : Engine) (self : EyeAdaptHistogramReduceMat)
    (ppInfo : PostProcessInfo) (pool : RenderTexturePool) (ds hi : PooledRenderTexture)
    (hd : ppInfo.downsampledSceneTex = some ds) (hh : ppInfo.histogramTex = some hi)
    (hl : ppInfo.lastEyeAdaptationTex < 2) :
    ∃ (r : EyeAdaptHistogramReduceMat × PostProcessInfo × World) (t : PooledRenderTexture),
      self.execute E ppInfo { pool := pool, trace := [] } = some r ∧
      r.2.1.histogramReduceTex = some t ∧
      poolGetsOf r.2.2.trace = [(Slot.histogramReduceTex, t)] ∧
      r.1.mOutputDesc = t.desc ∧
      t.desc.width = E.HISTOGRAM_NUM_TEXELS ∧ t.desc.height = 2 ∧
      t.desc.flag = TextureUsage.TU_LOADSTORE ∧ t.desc.flag ≠ TextureUsage.TU_RENDERTARGET ∧
      renderTargetsOf Stage.EyeAdaptHistogramReduce r.2.2.trace = [t.renderTexture] ∧
      drawCountOf Stage.EyeAdaptHistogramReduce r.2.2.trace = 1 := by
  obtain ⟨m, e, -, f, -⟩ := reduce_execute_eq E self ppInfo pool ds hi hd hh hl
  refine ⟨_, { id := pool.nextId, desc := reduceDesc E }, e [], rfl, ?_, f, rfl, rfl, rfl,
    ?_, ?_, ?_⟩
  · simp only [List.nil_append]
    split_ifs <;> rfl
  · show TextureUsage.TU_LOADSTORE ≠ TextureUsage.TU_RENDERTARGET
    decide
  · simp only [List.nil_append]
    split_ifs <;> rfl
  · simp only [List.nil_append]
    split_ifs <;> rfl

/-- C9, witness: the reduce stage of the first frame. -/
theorem reduce_output_usage_loadstore_witness :
    ∃ (r : EyeAdaptHistogramReduceMat × PostProcessInfo × World) (t : PooledRenderTexture),
      EyeAdaptHistogramReduceMat.execute sampleEngine freshPostProcessing.mEyeAdaptHistogramReduce
          (midFrameInfo sampleSettings) { pool := emptyWorld.pool, trace := [] } = some r ∧
      r.2.1.histogramReduceTex = some t ∧
      poolGetsOf r.2.2.trace = [(Slot.histogramReduceTex, t)] ∧
      r.1.mOutputDesc = t.desc ∧
      t.desc.width = sampleEngine.HISTOGRAM_NUM_TEXELS ∧ t.desc.height = 2 ∧
      t.desc.flag = TextureUsage.TU_LOADSTORE ∧ t.desc.flag ≠ TextureUsage.TU_RENDERTARGET ∧
      renderTargetsOf Stage.EyeAdaptHistogramReduce r.2.2.trace = [t.renderTexture] ∧
      drawCountOf Stage.EyeAdaptHistogramReduce r.2.2.trace = 1 :=
  reduce_output_usage_loadstore sampleEngine freshPostProcessing.mEyeAdaptHistogramReduce
    (midFrameInfo sampleSettings) emptyWorld.pool _ _ rfl rfl (by decide)

/-- C10.  For settings with `histogramLog2Min < histogramLog2Max`,
`getHistogramScaleOffset` returns `(scale, offset)` with
`scale * (histogramLog2Max - histogramLog2Min) = 1` and
`offset = -histogramLog2Min * scale`; in a `postProcess` call this result is the
`gHistogramParams` of the histogram stage and the first two components of the
first parameter vector of the eye-adaptation stage. -/
theorem histogram_scale_offset (E : Engine) (post : PostProcessing) (target : RenderTextureCore)
    (ppInfo : PostProcessInfo) (frameDelta : ℚ) (w : World)
    (hlt : ppInfo.settings.histogramLog2Min < ppInfo.settings.histogramLog2Max)
    (hl : ppInfo.lastEyeAdaptationTex < 2) :
    (EyeAdaptHistogramMat.getHistogramScaleOffset ppInfo).1 *
        (ppInfo.settings.histogramLog2Max - ppInfo.settings.histogramLog2Min) = 1 ∧
      (EyeAdaptHistogramMat.getHistogramScaleOffset ppInfo).2 =
        -ppInfo.settings.histogramLog2Min * (EyeAdaptHistogramMat.getHistogramScaleOffset ppInfo).1 ∧
      ∃ (r : PostProcessing × PostProcessInfo × World) (p0 p1 p2 : Vector4),
        PostProcessing.postProcess E post target ppInfo frameDelta w = some r ∧
        r.1.mEyeAdaptHistogram.gHistogramParams =
          EyeAdaptHistogramMat.getHistogramScaleOffset ppInfo ∧
        r.1.mEyeAdaptation.gEyeAdaptationParams = [p0, p1, p2] ∧
        (p0.x, p0.y) = EyeAdaptHistogramMat.getHistogramScaleOffset ppInfo := by
  refine ⟨?_, rfl, ?_⟩
  · show 1 / (ppInfo.settings.histogramLog2Max - ppInfo.settings.histogramLog2Min) *
      (ppInfo.settings.histogramLog2Max - ppInfo.settings.histogramLog2Min) = 1
    have hne : ppInfo.settings.histogramLog2Max - ppInfo.settings.histogramLog2Min ≠ 0 :=
      ne_of_gt (sub_pos.mpr hlt)
    field_simp
  · obtain ⟨p, e, fm⟩ := postProcess_eq E post target ppInfo frameDelta w hl
    exact ⟨_, _, _, _, e, fm.histogramParams, fm.adaptationParams, rfl⟩

/-- C10, witness: `histogramLog2Min = -10` and `histogramLog2Max = 4` give scale 1/14 and
offset 10/14. -/
theorem histogram_scale_offset_witness :
    EyeAdaptHistogramMat.getHistogramScaleOffset (freshInfo rangeSettings) = (1 / 14, 10 / 14) ∧
      (EyeAdaptHistogramMat.getHistogramScaleOffset (freshInfo rangeSettings)).1 *
        ((freshInfo rangeSettings).settings.histogramLog2Max -
          (freshInfo rangeSettings).settings.histogramLog2Min) = 1 := by
  have h := histogram_scale_offset sampleEngine freshPostProcessing (sceneTarget 1920 1080)
    (freshInfo rangeSettings) (2 / 125) emptyWorld
    (by norm_num [freshInfo, rangeSettings]) (by decide)
  refine ⟨?_, h.1⟩
  norm_num [EyeAdaptHistogramMat.getHistogramScaleOffset, freshInfo, rangeSettings]

/-! ## Claims on one `postProcess` call -/

theorem readsWhileLive_frameEvents (E : Engine) (target : RenderTextureCore)
    (ea : Option PooledRenderTexture × Option PooledRenderTexture) (last n : Nat) (live : Bool) :
    readsWhileLive Slot.downsampledSceneTex live (frameEvents E target ea last n) = false ∧
      readsWhileLive Slot.histogramTex false (frameEvents E target ea last n) = true ∧
      readsWhileLive Slot.histogramReduceTex false (frameEvents E target ea last n) = true := by
  unfold frameEvents
  cases live <;> split_ifs <;> exact ⟨rfl, rfl, rfl⟩

/-- C1, the code on every call.  In the command list of a `postProcess` call the
slot `downsampledSceneTex` is dereferenced while it is not live:
`EyeAdaptHistogramReduceMat::execute` reads it after `DownsampleMat::release`
has returned it to the pool.  The slots `histogramTex` and `histogramReduceTex`
are only read while live. -/
theorem postProcess_reads_released_downsample (E : Engine) (post : PostProcessing)
    (target : RenderTextureCore) (ppInfo : PostProcessInfo) (frameDelta : ℚ)
    (pool : RenderTexturePool) (hl : ppInfo.lastEyeAdaptationTex < 2) :
    ∃ r : PostProcessing × PostProcessInfo × World,
      PostProcessing.postProcess E post target ppInfo frameDelta { pool := pool, trace := [] } =
        some r ∧
      readsWhileLive Slot.downsampledSceneTex false r.2.2.trace = false ∧
      readsWhileLive Slot.downsampledSceneTex true r.2.2.trace = false ∧
      readsWhileLive Slot.histogramTex false r.2.2.trace = true ∧
      readsWhileLive Slot.histogramReduceTex false r.2.2.trace = true := by
  obtain ⟨p, e, -⟩ := postProcess_eq E post target ppInfo frameDelta { pool := pool, trace := [] } hl
  refine ⟨_, e, ?_, ?_, ?_, ?_⟩ <;> simp only [List.nil_append]
  · exact (readsWhileLive_frameEvents E target _ _ _ false).1
  · exact (readsWhileLive_frameEvents E target _ _ _ true).1
  · exact (readsWhileLive_frameEvents E target _ _ _ false).2.1
  · exact (readsWhileLive_frameEvents E target _ _ _ false).2.2

/-- C1, witness: the first frame on a fresh pipeline state with a 1920×1080 target. -/
theorem postProcess_reads_released_downsample_witness :
    ∃ r : PostProcessing × PostProcessInfo × World,
      PostProcessing.postProcess sampleEngine freshPostProcessing (sceneTarget 1920 1080)
          (freshInfo sampleSettings) (2 / 125) { pool := emptyWorld.pool, trace := [] } = some r ∧
      readsWhileLive Slot.downsampledSceneTex false r.2.2.trace = false ∧
      readsWhileLive Slot.downsampledSceneTex true r.2.2.trace = false ∧
      readsWhileLive Slot.histogramTex false r.2.2.trace = true ∧
      readsWhileLive Slot.histogramReduceTex false r.2.2.trace = true :=
  postProcess_reads_released_downsample sampleEngine freshPostProcessing (sceneTarget 1920 1080)
    (freshInfo sampleSettings) (2 / 125) emptyWorld.pool (by decide)

theorem poolTraffic_frameEvents (E : Engine) (target : RenderTextureCore)
    (ea : Option PooledRenderTexture × Option PooledRenderTexture) (last n : Nat) :
    poolGetsOf (frameEvents E target ea last n) =
        [(Slot.downsampledSceneTex, { id := n, desc := downsampleDesc target }),
         (Slot.histogramTex,
           { id := n + 1, desc := histogramDesc E { id := n, desc := downsampleDesc target } }),
         (Slot.histogramReduceTex, { id := n + 2, desc := reduceDesc E })] ++
        (if texturesInitialized ea then [] else
          [(Slot.eyeAdaptationTex 0, { id := n + 3, desc := adaptationDesc }),
           (Slot.eyeAdaptationTex 1, { id := n + 4, desc := adaptationDesc })]) ∧
      poolReleasesOf (frameEvents E target ea last n) =
        [(Slot.downsampledSceneTex, { id := n, desc := downsampleDesc target }),
         (Slot.histogramTex,
           { id := n + 1, desc := histogramDesc E { id := n, desc := downsampleDesc target } }),
         (Slot.histogramReduceTex, { id := n + 2, desc := reduceDesc E })] := by
  obtain ⟨a, b⟩ := ea
  unfold frameEvents
  cases a <;> cases b <;> split_ifs <;>
    first
      | exact ⟨rfl, rfl⟩
      | (simp [texturesInitialized] at *)

/-- C2, counterexample.  The first call on a fresh pipeline state with a
1920×1080 target and an empty pool returns with two handles outstanding, where
there were none before the call: the two adaptation buffers are acquired and
kept. -/
theorem first_frame_pool_count :
    ∃ r : PostProcessing × PostProcessInfo × World,
      PostProcessing.postProcess sampleEngine freshPostProcessing (sceneTarget 1920 1080)
          (freshInfo sampleSettings) (2 / 125) emptyWorld = some r ∧
      r.2.2.pool.outstandingCount = 2 ∧ emptyWorld.pool.outstandingCount = 0 := by
  obtain ⟨p, e, -⟩ := postProcess_eq sampleEngine freshPostProcessing (sceneTarget 1920 1080)
    (freshInfo sampleSettings) (2 / 125) emptyWorld (by decide)
  exact ⟨_, e, rfl, rfl⟩

/-- C2, amended.  In every `postProcess` call three stage-intermediate handles
are acquired (for `downsampledSceneTex`, `histogramTex`, `histogramReduceTex`)
and exactly these three are released before the call returns.  When both
adaptation buffers were allocated at entry nothing else is acquired and the
handles outstanding after the call are those outstanding before it; otherwise the
two adaptation buffers are acquired as well and kept, and the count of
outstanding handles grows by two. -/
theorem postProcess_pool_balance (E : Engine) (post : PostProcessing)
    (target : RenderTextureCore) (ppInfo : PostProcessInfo) (frameDelta : ℚ)
    (pool : RenderTexturePool) (hl : ppInfo.lastEyeAdaptationTex < 2) :
    ∃ (r : PostProcessing × PostProcessInfo × World) (ds hi hr b0 b1 : PooledRenderTexture),
      PostProcessing.postProcess E post target ppInfo frameDelta { pool := pool, trace := [] } =
        some r ∧
      r.2.1.downsampledSceneTex = some ds ∧ r.2.1.histogramTex = some hi ∧
      r.2.1.histogramReduceTex = some hr ∧ r.2.1.eyeAdaptationTex = (some b0, some b1) ∧
      poolGetsOf r.2.2.trace =
        [(Slot.downsampledSceneTex, ds), (Slot.histogramTex, hi), (Slot.histogramReduceTex, hr)] ++
          (if texturesInitialized ppInfo.eyeAdaptationTex then []
            else [(Slot.eyeAdaptationTex 0, b0), (Slot.eyeAdaptationTex 1, b1)]) ∧
      poolReleasesOf r.2.2.trace =
        [(Slot.downsampledSceneTex, ds), (Slot.histogramTex, hi), (Slot.histogramReduceTex, hr)] ∧
      r.2.2.pool.outstanding =
        (if texturesInitialized ppInfo.eyeAdaptationTex then [] else [b1, b0]) ++
          pool.outstanding ∧
      r.2.2.pool.outstandingCount =
        pool.outstandingCount + (if texturesInitialized ppInfo.eyeAdaptationTex then 0 else 2) := by
  obtain ⟨p, e, -⟩ := postProcess_eq E post target ppInfo frameDelta { pool := pool, trace := [] } hl
  have ht := poolTraffic_frameEvents E target ppInfo.eyeAdaptationTex
    ppInfo.lastEyeAdaptationTex pool.nextId
  obtain ⟨s, d, hi0, hr0, ⟨a, b⟩, l⟩ := ppInfo
  refine ⟨_, _, _, _, _, _, e, rfl, rfl, rfl, rfl, ?_, ?_, ?_, ?_⟩
  · simp only [List.nil_append]
    rw [ht.1]
    cases a <;> cases b <;> rfl
  · simp only [List.nil_append]
    exact ht.2
  · cases a <;> cases b <;> rfl
  · cases a <;> cases b <;> rfl

/-- C2, witness: the first frame on a fresh pipeline state with a 1920×1080 target. -/
theorem postProcess_pool_balance_witness :
    ∃ (r : PostProcessing × PostProcessInfo × World) (ds hi hr b0 b1 : PooledRenderTexture),
      PostProcessing.postProcess sampleEngine freshPostProcessing (sceneTarget 1920 1080)
          (freshInfo sampleSettings) (2 / 125) { pool := emptyWorld.pool, trace := [] } = some r ∧
      r.2.1.downsampledSceneTex = some ds ∧ r.2.1.histogramTex = some hi ∧
      r.2.1.histogramReduceTex = some hr ∧ r.2.1.eyeAdaptationTex = (some b0, some b1) ∧
      poolGetsOf r.2.2.trace =
        [(Slot.downsampledSceneTex, ds), (Slot.histogramTex, hi), (Slot.histogramReduceTex, hr)] ++
          (if texturesInitialized (freshInfo sampleSettings).eyeAdaptationTex then []
            else [(Slot.eyeAdaptationTex 0, b0), (Slot.eyeAdaptationTex 1, b1)]) ∧
      poolReleasesOf r.2.2.trace =
        [(Slot.downsampledSceneTex, ds), (Slot.histogramTex, hi), (Slot.histogramReduceTex, hr)] ∧
      r.2.2.pool.outstanding =
        (if texturesInitialized (freshInfo sampleSettings).eyeAdaptationTex then [] else [b1, b0]) ++
          emptyWorld.pool.outstanding ∧
      r.2.2.pool.outstandingCount =
        emptyWorld.pool.outstandingCount +
          (if texturesInitialized (freshInfo sampleSettings).eyeAdaptationTex then 0 else 2) :=
  postProcess_pool_balance sampleEngine freshPostProcessing (sceneTarget 1920 1080)
    (freshInfo sampleSettings) (2 / 125) emptyWorld.pool (by decide)


/-! ## Sequences of frames -/

theorem postProcessCalls_append (E : Engine) (xs ys : List (RenderTextureCore × ℚ))
    (s : PostProcessing × PostProcessInfo × World) :
    PostProcessing.postProcessCalls E (xs ++ ys) s =
      (PostProcessing.postProcessCalls E xs s).bind (PostProcessing.postProcessCalls E ys) := by
  induction xs generalizing s with
  | nil => rfl
  | cons x xs ih =>
    simp only [List.cons_append, PostProcessing.postProcessCalls]
    cases PostProcessing.postProcess E s.1 x.1 s.2.1 x.2 { s.2.2 with trace := [] } with
    | none => rfl
    | some r => exact ih r

theorem postProcessCalls_single (E : Engine) (c : RenderTextureCore × ℚ)
    (s : PostProcessing × PostProcessInfo × World) :
    PostProcessing.postProcessCalls E [c] s =
      PostProcessing.postProcess E s.1 c.1 s.2.1 c.2 { s.2.2 with trace := [] } := by
  simp only [PostProcessing.postProcessCalls]
  cases PostProcessing.postProcess E s.1 c.1 s.2.1 c.2 { s.2.2 with trace := [] } <;> rfl

theorem renderTargetsOf_frameEvents (E : Engine) (target : RenderTextureCore)
    (ea : Option PooledRenderTexture × Option PooledRenderTexture) (last n : Nat) :
    renderTargetsOf Stage.EyeAdaptation (frameEvents E target ea last n) =
      [(bufferAt (adaptationBuffers ea (n + 3)) ((last + 1) % 2)).renderTexture] := by
  unfold frameEvents
  split_ifs <;> rfl

theorem bufferAt_flip_ne (a b : PooledRenderTexture) (l : Nat) (hab : a.id ≠ b.id) (hl : l < 2) :
    (bufferAt (a, b) ((l + 1) % 2)).id ≠ (bufferAt (a, b) l).id := by
  interval_cases l
  · exact fun e => hab e.symm
  · exact hab

theorem eyeAdaptationTexAt_warm (ppInfo : PostProcessInfo) (a b : PooledRenderTexture)
    (h : ppInfo.eyeAdaptationTex = (some a, some b)) (hl : ppInfo.lastEyeAdaptationTex < 2) :
    ppInfo.eyeAdaptationTexAt ppInfo.lastEyeAdaptationTex =
      some (some (bufferAt (a, b) ppInfo.lastEyeAdaptationTex)) := by
  obtain ⟨s, d, hi, hr, ea, l⟩ := ppInfo
  simp only at h hl
  subst h
  interval_cases l <;> rfl

theorem adaptationInput_warm (a b : PooledRenderTexture) (l : Nat) :
    adaptationInput (some a, some b) l = (bufferAt (a, b) l).texture := by
  unfold adaptationInput bufferAt
  split_ifs <;> rfl

/-- One call from a warm state. -/
theorem warm_step (E : Engine) (s : PostProcessing × PostProcessInfo × World)
    (c : RenderTextureCore × ℚ) (a b : PooledRenderTexture)
    (hab : s.2.1.eyeAdaptationTex = (some a, some b))
    (hl : s.2.1.lastEyeAdaptationTex < 2) :
    ∃ r : PostProcessing × PostProcessInfo × World,
      PostProcessing.postProcess E s.1 c.1 s.2.1 c.2 { s.2.2 with trace := [] } = some r ∧
      r.2.1.eyeAdaptationTex = (some a, some b) ∧
      r.2.1.lastEyeAdaptationTex = (s.2.1.lastEyeAdaptationTex + 1) % 2 ∧
      renderTargetsOf Stage.EyeAdaptation r.2.2.trace =
        [(bufferAt (a, b) r.2.1.lastEyeAdaptationTex).renderTexture] ∧
      r.1.mEyeAdaptHistogramReduce.mEyeAdaptationTex =
        some (bufferAt (a, b) s.2.1.lastEyeAdaptationTex).texture := by
  obtain ⟨p, e, fm⟩ := postProcess_eq E s.1 c.1 s.2.1 c.2 { s.2.2 with trace := [] } hl
  refine ⟨_, e, ?_, rfl, ?_, ?_⟩
  · show (some (adaptationBuffers s.2.1.eyeAdaptationTex _).1,
      some (adaptationBuffers s.2.1.eyeAdaptationTex _).2) = _
    rw [hab]
    rfl
  · simp only [List.nil_append]
    rw [renderTargetsOf_frameEvents, hab]
    rfl
  · rw [fm.adaptationInput, hab, adaptationInput_warm]

theorem warm_of_step (E : Engine) (s : PostProcessing × PostProcessInfo × World)
    (c : RenderTextureCore × ℚ) (hs : Warm s) :
    ∃ r : PostProcessing × PostProcessInfo × World,
      PostProcessing.postProcess E s.1 c.1 s.2.1 c.2 { s.2.2 with trace := [] } = some r ∧
        Warm r := by
  obtain ⟨a, b, hab, hne, hl, -⟩ := hs
  obtain ⟨r, e, h1, h2, h3, -⟩ := warm_step E s c a b hab hl
  exact ⟨r, e, a, b, h1, hne, by rw [h2]; exact Nat.mod_lt _ (by decide), h3⟩

theorem warm_calls (E : Engine) (cs : List (RenderTextureCore × ℚ))
    (s : PostProcessing × PostProcessInfo × World) (hs : Warm s) :
    ∃ r : PostProcessing × PostProcessInfo × World,
      PostProcessing.postProcessCalls E cs s = some r ∧ Warm r := by
  induction cs generalizing s with
  | nil => exact ⟨s, rfl, hs⟩
  | cons c cs ih =>
    obtain ⟨r, e, hr⟩ := warm_of_step E s c hs
    obtain ⟨r', e', hr'⟩ := ih r hr
    refine ⟨r', ?_, hr'⟩
    simp only [PostProcessing.postProcessCalls, e]
    exact e'

/-- The first call on a pipeline state without adaptation buffers. -/
theorem cold_step (E : Engine) (s : PostProcessing × PostProcessInfo × World)
    (c : RenderTextureCore × ℚ) (h0 : s.2.1.eyeAdaptationTex = (none, none))
    (hl : s.2.1.lastEyeAdaptationTex = 0) :
    ∃ r : PostProcessing × PostProcessInfo × World,
      PostProcessing.postProcess E s.1 c.1 s.2.1 c.2 { s.2.2 with trace := [] } = some r ∧
      Warm r ∧
      r.1.mEyeAdaptHistogramReduce.mEyeAdaptationTex = some TextureCore.WHITE := by
  obtain ⟨p, e, fm⟩ := postProcess_eq E s.1 c.1 s.2.1 c.2 { s.2.2 with trace := [] }
    (by rw [hl]; decide)
  refine ⟨_, e, ⟨{ id := s.2.2.pool.nextId + 3, desc := adaptationDesc },
    { id := s.2.2.pool.nextId + 3 + 1, desc := adaptationDesc }, ?_, ?_, ?_, ?_⟩, ?_⟩
  · show (some (adaptationBuffers s.2.1.eyeAdaptationTex _).1,
      some (adaptationBuffers s.2.1.eyeAdaptationTex _).2) = _
    rw [h0]
    rfl
  · show s.2.2.pool.nextId + 3 ≠ s.2.2.pool.nextId + 3 + 1
    omega
  · exact Nat.mod_lt _ (by decide)
  · simp only [List.nil_append]
    rw [renderTargetsOf_frameEvents, h0]
    rfl
  · rw [fm.adaptationInput, h0, hl]
    rfl

theorem cold_calls (E : Engine) (c : RenderTextureCore × ℚ) (cs : List (RenderTextureCore × ℚ))
    (s : PostProcessing × PostProcessInfo × World) (h0 : s.2.1.eyeAdaptationTex = (none, none))
    (hl : s.2.1.lastEyeAdaptationTex = 0) :
    ∃ r : PostProcessing × PostProcessInfo × World,
      PostProcessing.postProcessCalls E (c :: cs) s = some r ∧ Warm r := by
  obtain ⟨r, e, hr, -⟩ := cold_step E s c h0 hl
  obtain ⟨r', e', hr'⟩ := warm_calls E cs r hr
  refine ⟨r', ?_, hr'⟩
  simp only [PostProcessing.postProcessCalls, e]
  exact e'

/-- C3.  On a pipeline state that starts with both `eyeAdaptationTex` slots
unallocated and `lastEyeAdaptationTex = 0`: the first `postProcess` call returns
(no null slot is dereferenced) and `EyeAdaptHistogramReduceMat::execute` binds
`TextureCore::WHITE` as its adaptation input; for any two consecutive calls k and
k+1, the reduce stage of call k+1 binds the texture of the buffer `b` that
`EyeAdaptationMat::execute` rendered into during call k, and the eye-adaptation
stage of call k+1 renders into the other of the same two buffers. -/
theorem adaptation_history (E : Engine) (post : PostProcessing) (ppInfo : PostProcessInfo)
    (w : World) (first : RenderTextureCore × ℚ) (earlier : List (RenderTextureCore × ℚ))
    (call next : RenderTextureCore × ℚ)
    (h0 : ppInfo.eyeAdaptationTex = (none, none)) (hl : ppInfo.lastEyeAdaptationTex = 0) :
    (∃ r : PostProcessing × PostProcessInfo × World,
      PostProcessing.postProcessCalls E [first] (post, ppInfo, w) = some r ∧
      r.1.mEyeAdaptHistogramReduce.mEyeAdaptationTex = some TextureCore.WHITE) ∧
    ∃ (r r' : PostProcessing × PostProcessInfo × World) (b b' : PooledRenderTexture),
      PostProcessing.postProcessCalls E (earlier ++ [call]) (post, ppInfo, w) = some r ∧
      PostProcessing.postProcessCalls E (earlier ++ [call, next]) (post, ppInfo, w) = some r' ∧
      renderTargetsOf Stage.EyeAdaptation r.2.2.trace = [b.renderTexture] ∧
      r.2.1.eyeAdaptationTexAt r.2.1.lastEyeAdaptationTex = some (some b) ∧
      r'.1.mEyeAdaptHistogramReduce.mEyeAdaptationTex = some b.texture ∧
      renderTargetsOf Stage.EyeAdaptation r'.2.2.trace = [b'.renderTexture] ∧
      r'.2.1.eyeAdaptationTexAt r'.2.1.lastEyeAdaptationTex = some (some b') ∧
      r'.2.1.eyeAdaptationTex = r.2.1.eyeAdaptationTex ∧ b'.id ≠ b.id := by
  constructor
  · obtain ⟨r, e, -, hw⟩ := cold_step E (post, ppInfo, w) first h0 hl
    exact ⟨r, by rw [postProcessCalls_single]; exact e, hw⟩
  · obtain ⟨c0, rest, hcr⟩ : ∃ c0 rest, earlier ++ [call] = c0 :: rest := by
      cases earlier with
      | nil => exact ⟨call, [], rfl⟩
      | cons x xs => exact ⟨x, xs ++ [call], rfl⟩
    obtain ⟨r, e, a, b, hab, hne, hlt, htr⟩ := cold_calls E c0 rest (post, ppInfo, w) h0 hl
    obtain ⟨r', e', h1, h2, h3, h4⟩ := warm_step E r next a b hab hlt
    have hsplit : earlier ++ [call, next] = (earlier ++ [call]) ++ [next] := by simp
    refine ⟨r, r', bufferAt (a, b) r.2.1.lastEyeAdaptationTex,
      bufferAt (a, b) r'.2.1.lastEyeAdaptationTex, ?_, ?_, htr,
      eyeAdaptationTexAt_warm _ a b hab hlt, h4, h3, ?_, ?_, ?_⟩
    · rw [hcr]; exact e
    · rw [hsplit, postProcessCalls_append, hcr, e]
      show PostProcessing.postProcessCalls E [next] r = some r'
      rw [postProcessCalls_single]
      exact e'
    · exact eyeAdaptationTexAt_warm _ a b h1 (by rw [h2]; exact Nat.mod_lt _ (by decide))
    · rw [h1, hab]
    · rw [h2]
      exact bufferAt_flip_ne a b _ hne hlt

/-- C3, witness: three frames on a fresh pipeline state. -/
theorem adaptation_history_witness :
    (∃ r : PostProcessing × PostProcessInfo × World,
      PostProcessing.postProcessCalls sampleEngine [(sceneTarget 1920 1080, 2 / 125)]
          (freshPostProcessing, freshInfo sampleSettings, emptyWorld) = some r ∧
      r.1.mEyeAdaptHistogramReduce.mEyeAdaptationTex = some TextureCore.WHITE) ∧
    ∃ (r r' : PostProcessing × PostProcessInfo × World) (b b' : PooledRenderTexture),
      PostProcessing.postProcessCalls sampleEngine
          ([(sceneTarget 1920 1080, 2 / 125)] ++ [(sceneTarget 1920 1080, 2 / 125)])
          (freshPostProcessing, freshInfo sampleSettings, emptyWorld) = some r ∧
      PostProcessing.postProcessCalls sampleEngine
          ([(sceneTarget 1920 1080, 2 / 125)] ++
            [(sceneTarget 1920 1080, 2 / 125), (sceneTarget 1280 720, 2 / 125)])
          (freshPostProcessing, freshInfo sampleSettings, emptyWorld) = some r' ∧
      renderTargetsOf Stage.EyeAdaptation r.2.2.trace = [b.renderTexture] ∧
      r.2.1.eyeAdaptationTexAt r.2.1.lastEyeAdaptationTex = some (some b) ∧
      r'.1.mEyeAdaptHistogramReduce.mEyeAdaptationTex = some b.texture ∧
      renderTargetsOf Stage.EyeAdaptation r'.2.2.trace = [b'.renderTexture] ∧
      r'.2.1.eyeAdaptationTexAt r'.2.1.lastEyeAdaptationTex = some (some b') ∧
      r'.2.1.eyeAdaptationTex = r.2.1.eyeAdaptationTex ∧ b'.id ≠ b.id :=
  adaptation_history sampleEngine freshPostProcessing (freshInfo sampleSettings) emptyWorld
    (sceneTarget 1920 1080, 2 / 125) [(sceneTarget 1920 1080, 2 / 125)]
    (sceneTarget 1920 1080, 2 / 125) (sceneTarget 1280 720, 2 / 125) rfl rfl


theorem postProcess_index (E : Engine) (post : PostProcessing) (target : RenderTextureCore)
    (ppInfo : PostProcessInfo) (frameDelta : ℚ) (w : World)
    (hl : ppInfo.lastEyeAdaptationTex < 2) :
    ∃ r : PostProcessing × PostProcessInfo × World,
      PostProcessing.postProcess E post target ppInfo frameDelta w = some r ∧
      r.2.1.lastEyeAdaptationTex = (ppInfo.lastEyeAdaptationTex + 1) % 2 := by
  obtain ⟨p, e, -⟩ := postProcess_eq E post target ppInfo frameDelta w hl
  exact ⟨_, e, rfl⟩

theorem calls_index (E : Engine) (cs : List (RenderTextureCore × ℚ))
    (s : PostProcessing × PostProcessInfo × World) (hl : s.2.1.lastEyeAdaptationTex < 2) :
    ∃ r : PostProcessing × PostProcessInfo × World,
      PostProcessing.postProcessCalls E cs s = some r ∧
      r.2.1.lastEyeAdaptationTex = (s.2.1.lastEyeAdaptationTex + cs.length) % 2 := by
  induction cs generalizing s with
  | nil => exact ⟨s, rfl, by simp only [List.length_nil, Nat.add_zero]; omega⟩
  | cons c cs ih =>
    obtain ⟨r1, e, h1⟩ := postProcess_index E s.1 c.1 s.2.1 c.2 { s.2.2 with trace := [] } hl
    obtain ⟨r, e', hr⟩ := ih r1 (by rw [h1]; exact Nat.mod_lt _ (by decide))
    refine ⟨r, ?_, ?_⟩
    · simp only [PostProcessing.postProcessCalls, e]
      exact e'
    · rw [hr, h1]
      simp only [List.length_cons]
      omega

theorem map_const_of_forall {α β : Type} (o : Option α) (f : α → β) (c : β)
    (h : ∀ r, o = some r → f r = c) : o.map f = o.map (fun _ => c) := by
  cases o with
  | none => rfl
  | some r => exact congrArg some (h r rfl)

/-- C4.  On a pipeline state whose `lastEyeAdaptationTex` starts at 0, after N
`postProcess` calls the index is `N mod 2`, and one more call changes it by one
modulo 2.  Of the stages, `EyeAdaptationMat::execute` sets the index to
`(index + 1) mod 2`; the other `execute` and the `release` operations leave it
as it was. -/
theorem index_alternates (E : Engine) (post : PostProcessing) (ppInfo : PostProcessInfo)
    (w : World) (calls : List (RenderTextureCore × ℚ)) (next : RenderTextureCore × ℚ)
    (dm : DownsampleMat) (hm : EyeAdaptHistogramMat) (rm : EyeAdaptHistogramReduceMat)
    (am : EyeAdaptationMat) (target : RenderTextureCore) (info : PostProcessInfo)
    (frameDelta : ℚ) (w1 : World)
    (h0 : ppInfo.lastEyeAdaptationTex = 0) :
    (∃ r r' : PostProcessing × PostProcessInfo × World,
      PostProcessing.postProcessCalls E calls (post, ppInfo, w) = some r ∧
      r.2.1.lastEyeAdaptationTex = calls.length % 2 ∧
      PostProcessing.postProcessCalls E (calls ++ [next]) (post, ppInfo, w) = some r' ∧
      r'.2.1.lastEyeAdaptationTex = (r.2.1.lastEyeAdaptationTex + 1) % 2 ∧
      r'.2.1.lastEyeAdaptationTex ≠ r.2.1.lastEyeAdaptationTex) ∧
    (dm.execute target info w1).2.1.lastEyeAdaptationTex = info.lastEyeAdaptationTex ∧
    (dm.release info w1).map (fun r => r.2.1.lastEyeAdaptationTex) =
      (dm.release info w1).map (fun _ => info.lastEyeAdaptationTex) ∧
    (hm.execute E info w1).map (fun r => r.2.1.lastEyeAdaptationTex) =
      (hm.execute E info w1).map (fun _ => info.lastEyeAdaptationTex) ∧
    (hm.release info w1).map (fun r => r.2.1.lastEyeAdaptationTex) =
      (hm.release info w1).map (fun _ => info.lastEyeAdaptationTex) ∧
    (rm.execute E info w1).map (fun r => r.2.1.lastEyeAdaptationTex) =
      (rm.execute E info w1).map (fun _ => info.lastEyeAdaptationTex) ∧
    (rm.release info w1).map (fun r => r.2.1.lastEyeAdaptationTex) =
      (rm.release info w1).map (fun _ => info.lastEyeAdaptationTex) ∧
    (am.execute E info frameDelta w1).map (fun r => r.2.1.lastEyeAdaptationTex) =
      (am.execute E info frameDelta w1).map (fun _ => (info.lastEyeAdaptationTex + 1) % 2) := by
  refine ⟨?_, rfl, ?_, ?_, ?_, ?_, ?_, ?_⟩
  · obtain ⟨r, e, hr⟩ := calls_index E calls (post, ppInfo, w) (by rw [h0]; decide)
    obtain ⟨r', e', hr'⟩ := postProcess_index E r.1 next.1 r.2.1 next.2 { r.2.2 with trace := [] }
      (by rw [hr]; exact Nat.mod_lt _ (by decide))
    refine ⟨r, r', e, ?_, ?_, hr', ?_⟩
    · rw [hr]
      show (ppInfo.lastEyeAdaptationTex + calls.length) % 2 = _
      rw [h0, Nat.zero_add]
    · rw [postProcessCalls_append, e]
      show PostProcessing.postProcessCalls E [next] r = _
      rw [postProcessCalls_single]
      exact e'
    · rw [hr']
      omega
  · apply map_const_of_forall
    intro r hr
    unfold DownsampleMat.release at hr
    cases hd : info.downsampledSceneTex with
    | none => rw [hd] at hr; cases hr
    | some t => rw [hd] at hr; cases hr; rfl
  · apply map_const_of_forall
    intro r hr
    unfold EyeAdaptHistogramMat.execute at hr
    cases hd : info.downsampledSceneTex with
    | none => rw [hd] at hr; cases hr
    | some t => rw [hd] at hr; cases hr; rfl
  · apply map_const_of_forall
    intro r hr
    unfold EyeAdaptHistogramMat.release at hr
    cases hd : info.histogramTex with
    | none => rw [hd] at hr; cases hr
    | some t => rw [hd] at hr; cases hr; rfl
  · apply map_const_of_forall
    intro r hr
    unfold EyeAdaptHistogramReduceMat.execute at hr
    cases hh : info.histogramTex with
    | none => rw [hh] at hr; cases hr
    | some t =>
      cases hd : info.downsampledSceneTex with
      | none =>
        rw [hh, hd] at hr
        cases hs : info.eyeAdaptationTexAt info.lastEyeAdaptationTex with
        | none => rw [hs] at hr; cases hr
        | some u => rw [hs] at hr; cases hr
      | some t' =>
        rw [hh, hd] at hr
        cases hs : info.eyeAdaptationTexAt info.lastEyeAdaptationTex with
        | none => rw [hs] at hr; cases hr
        | some u => rw [hs] at hr; cases hr; rfl
  · apply map_const_of_forall
    intro r hr
    unfold EyeAdaptHistogramReduceMat.release at hr
    cases hd : info.histogramReduceTex with
    | none => rw [hd] at hr; cases hr
    | some t => rw [hd] at hr; cases hr; rfl
  · apply map_const_of_forall
    intro r hr
    cases hd : info.histogramReduceTex with
    | none =>
      exfalso
      obtain ⟨s, d, hi, hr0, ⟨a, b⟩, l⟩ := info
      simp only at hd
      subst hd
      cases a <;> cases b <;> simp [EyeAdaptationMat.execute] at hr
    | some t =>
      obtain ⟨m, e, -⟩ := adaptation_execute_eq E am info frameDelta w1.pool t hd
      rw [e w1.trace] at hr
      cases hr
      rfl

/-- C4, witness: three frames and a fourth on a fresh pipeline state. -/
theorem index_alternates_witness :
    (∃ r r' : PostProcessing × PostProcessInfo × World,
      PostProcessing.postProcessCalls sampleEngine
          [(sceneTarget 1920 1080, 2 / 125), (sceneTarget 1920 1080, 2 / 125),
           (sceneTarget 1280 720, 1 / 60)]
          (freshPostProcessing, freshInfo sampleSettings, emptyWorld) = some r ∧
      r.2.1.lastEyeAdaptationTex = 3 % 2 ∧
      PostProcessing.postProcessCalls sampleEngine
          ([(sceneTarget 1920 1080, 2 / 125), (sceneTarget 1920 1080, 2 / 125),
            (sceneTarget 1280 720, 1 / 60)] ++ [(sceneTarget 1280 720, 1 / 60)])
          (freshPostProcessing, freshInfo sampleSettings, emptyWorld) = some r' ∧
      r'.2.1.lastEyeAdaptationTex = (r.2.1.lastEyeAdaptationTex + 1) % 2 ∧
      r'.2.1.lastEyeAdaptationTex ≠ r.2.1.lastEyeAdaptationTex) :=
  (index_alternates sampleEngine freshPostProcessing (freshInfo sampleSettings) emptyWorld
    [(sceneTarget 1920 1080, 2 / 125), (sceneTarget 1920 1080, 2 / 125),
     (sceneTarget 1280 720, 1 / 60)]
    (sceneTarget 1280 720, 1 / 60) freshPostProcessing.mDownsample
    freshPostProcessing.mEyeAdaptHistogram freshPostProcessing.mEyeAdaptHistogramReduce
    freshPostProcessing.mEyeAdaptation (sceneTarget 1920 1080) (midFrameInfo sampleSettings)
    (2 / 125) emptyWorld rfl).1

end BansheeEngine
